import Mathlib

/-!
# Verification of the globe_tripper pipeline-orchestration core

A shallow embedding, in Lean 4, of the deterministic task-derivation,
result-recording, result-application and itinerary-filter algorithms of the
`globe_tripper` trip-planning orchestrator, together with theorems settling
the specification claims about them.

Modelling conventions, used throughout:

* Python `Optional[str]` fields become `Option String`; Python truthiness of
  such a field (`if x:`) is `strTruthy` (`None` and `""` are falsy).
* Calendar dates are modelled as integer day numbers (`Int`); the source
  parses ISO date strings with `date.fromisoformat` and then only compares,
  subtracts and adds whole days, so its date arithmetic is isomorphic to
  arithmetic on day numbers.  A field that the source stores as an ISO date
  string becomes `Option Int` (with `none` for an absent or unparsable
  value).
* Python dict comprehensions (`{x.key: x for x in xs}`) keep the *last*
  entry per key; lookups through such maps are `findLast`.  `next((t for t
  in ts if ...), None)` keeps the *first* match and is `List.find?`.
* Fields that no verified function reads or writes (LLM prompt text,
  duration/price breakdown fields that are only carried through opaquely,
  `sources`, `validity`, `documents_required`, ...) are omitted from the
  records; a comment on each record lists what is kept.
* Floating-point price fields are never computed on by the verified
  functions (they are only carried through); where kept they are `Option
  Int` so the development stays decidable.
-/

namespace GlobeTripper

/-- Python truthiness of an `Optional[str]` value: `None` and `""` are falsy. -/
def strTruthy : Option String → Bool
  | none => false
  | some s => !(s == "")

/-- Python `a or b` on `Optional[str]` values: yields `a` when `a` is truthy,
otherwise `b` (whatever it is). -/
def pyOrS (a b : Option String) : Option String :=
  if strTruthy a then a else b

/-- Python `s or default` where `default` is a plain string. -/
def orDefault (o : Option String) (d : String) : String :=
  if strTruthy o then o.getD "" else d

/-- Python `needle in hay` on strings: substring containment (as a `Bool`). -/
def substrB (needle hay : String) : Bool :=
  decide (needle.toList <:+: hay.toList)

/-- Python `s.lower()` (ASCII model, character by character). -/
def toLowerStr (s : String) : String :=
  ⟨s.data.map Char.toLower⟩

/-- Python `s.strip()` (ASCII-whitespace model). -/
def trimStr (s : String) : String :=
  ⟨((s.data.dropWhile Char.isWhitespace).reverse.dropWhile Char.isWhitespace).reverse⟩

/-- Lookup through a Python dict comprehension `{x.key: x for x in xs}`:
the *last* element satisfying the predicate wins. -/
def findLast (p : α → Bool) (l : List α) : Option α :=
  l.reverse.find? p

/-- Update the *last* element of a list satisfying `p` (the entry a Python
dict built with last-wins semantics would alias). -/
def updateLast (p : α → Bool) (f : α → α) : List α → List α
  | [] => []
  | a :: rest =>
      if rest.any p then a :: updateLast p f rest
      else if p a then f a :: rest
      else a :: rest

/-- `re.findall(r"\d+", s)` mapped through `int`: the maximal runs of decimal
digits occurring in `s`, in order. -/
def extractNats (s : String) : List Nat :=
  let step : List Nat × Option Nat → Char → List Nat × Option Nat :=
    fun acc c =>
      if c.isDigit then
        match acc.2 with
        | some cur => (acc.1, some (cur * 10 + (c.toNat - 48)))
        | none => (acc.1, some (c.toNat - 48))
      else
        match acc.2 with
        | some cur => (acc.1 ++ [cur], none)
        | none => acc
  let r := s.toList.foldl step ([], none)
  match r.2 with
  | some cur => r.1 ++ [cur]
  | none => r.1

/-- Python `max` over a list of naturals (used only on non-empty lists). -/
def maxOfList (l : List Nat) : Nat :=
  l.foldl Nat.max 0

/-! ## Data model (state records)

Mirrors `src/state/planner_state.py`, `flight_state.py`, `visa_state.py`,
`accommodation_state.py` and the itinerary types of `run.py`, restricted to
the fields the verified functions touch. -/

/-- `Traveler` (planner_state.py) restricted to the origin fields that
`derive_flight_search_tasks` reads.  (`role`, `age`, `nationality`,
interest/needs lists are never read by the verified functions.) -/
structure Traveler where
  origin : Option String
  origin_airport_code : Option String
deriving Repr, DecidableEq

/-- `TripDetails` (planner_state.py), with the airport-code fields that
`tools.py` reads; dates as day numbers. -/
structure TripDetails where
  destination : Option String
  origin : Option String
  origin_airport_code : Option String
  destination_airport_code : Option String
  start_date : Option Int
  end_date : Option Int
  flexible_dates : Option Bool
deriving Repr, DecidableEq

/-- `Demographics` restricted to the traveler list (the aggregate counts are
not read by the verified functions). -/
structure Demographics where
  travelers : List Traveler
deriving Repr, DecidableEq

/-- `Preferences` restricted to `budget_mode`. -/
structure Preferences where
  budget_mode : Option String
deriving Repr, DecidableEq

/-- `PlannerState` (status omitted: never read here). -/
structure PlannerState where
  trip_details : TripDetails
  demographics : Demographics
  preferences : Preferences
deriving Repr, DecidableEq

/-- `FlightOption` (flight_state.py): canonical bucket plus the price fields;
the timing/duration descriptive fields are carried through opaquely by every
verified function and are omitted. -/
structure FlightOption where
  option_type : String
  airlines : List String
  currency : Option String
  price_per_ticket_low : Option Int
  price_per_ticket_high : Option Int
  total_price_low : Option Int
  total_price_high : Option Int
  notes : Option String
deriving Repr, DecidableEq

/-- `FlightSearchTask` (flight_state.py); `prompt`/`purpose` (generated LLM
text) and `flexibility_hint` (always `None` at creation) are omitted. -/
structure FlightSearchTask where
  task_id : String
  traveler_indexes : List Nat
  origin_city : Option String
  destination_city : Option String
  original_departure_date : Option Int
  original_return_date : Option Int
  recommended_departure_date : Option Int
  recommended_return_date : Option Int
  visa_timeline_reason : Option String
  cabin_preference : Option String
  budget_mode : Option String
deriving Repr, DecidableEq

/-- `FlightSearchResult` (flight_state.py); `query` (copied LLM prompt text)
is omitted. -/
structure FlightSearchResult where
  task_id : String
  options : List FlightOption
  summary : Option String
  best_price_hint : Option String
  best_time_hint : Option String
  cheap_but_long_hint : Option String
  recommended_option_label : Option String
  notes : Option String
  chosen_option_type : Option String
  selection_reason : Option String
deriving Repr, DecidableEq

/-- `TravelerFlightChoice` (flight_state.py). -/
structure TravelerFlightChoice where
  traveler_index : Nat
  task_id : String
  summary : Option String
  best_price_hint : Option String
  best_time_hint : Option String
  cheap_but_long_hint : Option String
  recommended_option_label : Option String
  notes : Option String
  chosen_option_type : Option String
  selection_reason : Option String
  chosen_option : Option FlightOption
  other_options : List FlightOption
deriving Repr, DecidableEq

/-- `FlightState` (flight_state.py). -/
structure FlightState where
  search_tasks : List FlightSearchTask
  search_results : List FlightSearchResult
  overall_summary : Option String
  traveler_flights : List TravelerFlightChoice
deriving Repr, DecidableEq

/-! ## Visa-aware date shifting (tools.py lines 467-519)

The date-shift core of `derive_flight_search_tasks`.  Inputs are the parsed
`dep_dt` / `ret_dt` / `safe_dep_dt` values (`none` models both an absent
field and a failed `date.fromisoformat` parse) plus the truthiness of
`flexible_dates`.  Output: `(recommended_departure, recommended_return,
visa_reason_recorded)`; the recommended dates start out equal to the
originals. -/
def visaAwareDates (start_date end_date : Option Int) (earliest_safe : Option Int)
    (flexible : Bool) : Option Int × Option Int × Bool :=
  match start_date, earliest_safe with
  | some dep, some safe =>
      if safe > dep then
        match end_date with
        | some ret =>
            if safe ≥ ret then
              -- delta = ret - dep; if not delta or delta.days <= 0: delta = 3
              let delta : Int := if ret - dep ≤ 0 then 3 else ret - dep
              (some safe, some (safe + delta), true)
            else if flexible then
              (some safe, some (safe + (ret - dep)), true)
            else
              (some safe, some ret, true)
        | none => (some safe, none, true)
      else (start_date, end_date, false)
  | _, _ => (start_date, end_date, false)

/-! ## Flight task derivation (tools.py `derive_flight_search_tasks`) -/

/-- The grouping key of a flight search task: `(origin_city, destination)`. -/
abbrev FlightKey := Option String × String

/-- One `groups.setdefault(key, []).append(idx)` step of the grouping loop. -/
def addToGroups (groups : List (FlightKey × List Nat)) (key : FlightKey)
    (idx : Nat) : List (FlightKey × List Nat) :=
  if groups.any (fun g => g.1 == key) then
    groups.map (fun g => if g.1 == key then (g.1, g.2 ++ [idx]) else g)
  else
    groups ++ [(key, [idx])]

/-- The grouping key of one enumerated traveler:
`origin_airport_code or origin or trip-level default`, paired with the
destination. -/
def travelerFlightKey (origin_default : Option String) (destination : String)
    (it : Nat × Traveler) : FlightKey :=
  (pyOrS (pyOrS it.2.origin_airport_code it.2.origin) origin_default, destination)

/-- Group travelers by `(origin_city, destination)`, where the per-traveler
origin override takes precedence over the trip-level default (insertion
order preserved, as for a Python dict). -/
def flightGroups (origin_default : Option String) (destination : String)
    (travelers : List Traveler) : List (FlightKey × List Nat) :=
  travelers.enum.foldl
    (fun groups it =>
      addToGroups groups (travelerFlightKey origin_default destination it) it.1)
    []

/-- Outcome value of a derivation / recording / application tool
(the `status` field of the returned dict, with its `reason`). -/
inductive ToolOutcome where
  | success : ToolOutcome
  | skipped : String → ToolOutcome
  | error : String → ToolOutcome
deriving Repr, DecidableEq

/-- Build one `FlightSearchTask` from a traveler group
(`derive_flight_search_tasks` loop body; the generated natural-language
`prompt` is omitted from the model). -/
def mkFlightTask (existingCount : Nat) (budget_mode : Option String)
    (origDep origRet recDep recRet : Option Int) (hasReason : Bool)
    (pos : Nat) (key : FlightKey) (indexes : List Nat) : FlightSearchTask :=
  { task_id := "flight_" ++ orDefault key.1 "unknown" ++ "_" ++ key.2 ++ "_"
      ++ toString (existingCount + pos)
    traveler_indexes := indexes
    origin_city := key.1
    destination_city := some key.2
    original_departure_date := origDep
    original_return_date := origRet
    recommended_departure_date := recDep
    recommended_return_date := recRet
    visa_timeline_reason := if hasReason then some "visa_timeline_adjustment" else none
    cabin_preference := if budget_mode == some "luxury" then some "business" else some "economy"
    budget_mode := budget_mode }

/-- `VisaState` is needed by flight derivation only through
`earliest_safe_departure_date`; the full record is defined further below,
so derivation takes the date directly where the source reads
`visa_state.earliest_safe_departure_date`. -/
def derive_flight_search_tasks (ps : PlannerState)
    (earliest_safe_departure_date : Option Int) (fs : FlightState) :
    ToolOutcome × FlightState :=
  let td := ps.trip_details
  if !(strTruthy td.destination_airport_code) then
    (.skipped "missing_destination_airport_code", fs)
  else
    let destination := td.destination_airport_code.getD ""
    let origin_default := pyOrS td.origin_airport_code td.origin
    let travelers := ps.demographics.travelers
    -- `if not destination or not travelers or not start_date` (destination is
    -- already truthy here).
    if travelers.isEmpty || td.start_date == none then
      (.skipped "missing_destination_travelers_or_start_date", fs)
    else
      let dsr :=
        visaAwareDates td.start_date td.end_date earliest_safe_departure_date
          (td.flexible_dates == some true)
      let groups := flightGroups origin_default destination travelers
      let tasks := groups.enum.map (fun g =>
        mkFlightTask fs.search_tasks.length ps.preferences.budget_mode
          td.start_date td.end_date dsr.1 dsr.2.1 dsr.2.2 g.1 g.2.1 g.2.2)
      (.success, { fs with search_tasks := fs.search_tasks ++ tasks })

/-- The flight pipeline driver's phase-1 guard (run.py lines 1404-1405):
derivation runs only when `search_tasks` is currently empty.  (The LLM
indirection is abstracted to the derivation tool call the agent is
instructed to make.) -/
def flightDerivePhase (ps : PlannerState) (earliest : Option Int)
    (fs : FlightState) : FlightState :=
  if fs.search_tasks.isEmpty then (derive_flight_search_tasks ps earliest fs).2
  else fs

/-- The `(origin_city, destination_city)` group of a task. -/
def taskKey (t : FlightSearchTask) : Option String × Option String :=
  (t.origin_city, t.destination_city)

/-! ## Visa data model (visa_state.py) -/

/-- `VisaRequirement`, restricted to the fields the apply step reads or
writes (`validity`, `entry_conditions`, `documents_required`,
`where_to_apply`, `appointment_requirements` are never touched by it). -/
structure VisaRequirement where
  traveler_index : Nat
  origin : Option String
  destination : Option String
  nationality : Option String
  needs_visa : Option Bool
  visa_type : Option String
  processing_time : Option String
  cost : Option String
  additional_notes : Option String
deriving Repr, DecidableEq

/-- `VisaSearchTask` (`travel_purpose` and the generated `prompt` are
omitted: never read by the verified functions). -/
structure VisaSearchTask where
  task_id : String
  traveler_indexes : List Nat
  origin_country : Option String
  destination_country : Option String
  nationality : Option String
deriving Repr, DecidableEq

/-- `VisaSearchResult` (`query`, `jurisdiction`, `sources` omitted: only
copied, never read by the verified functions). -/
structure VisaSearchResult where
  task_id : String
  summary : Option String
  processing_time_hint : Option String
  fee_hint : Option String
  notes : Option String
deriving Repr, DecidableEq

/-- `VisaState`; `earliest_safe_departure_date` as a day number. -/
structure VisaState where
  requirements : List VisaRequirement
  overall_summary : Option String
  search_tasks : List VisaSearchTask
  search_results : List VisaSearchResult
  earliest_safe_departure_date : Option Int
deriving Repr, DecidableEq

/-! ## Result recording tools (tools.py)

Each tool first validates the `task_id` against the known tasks with
`next((t for t in state.search_tasks if t.task_id == task_id), None)` —
a *first*-match lookup — and returns an `unknown_task_id` error without
touching the state when it fails. -/

/-- `record_visa_search_result` (tools.py lines 682-743). -/
def record_visa_search_result (vs : VisaState) (task_id : String)
    (summary : String) (processing_time_hint fee_hint notes : Option String) :
    ToolOutcome × VisaState :=
  match vs.search_tasks.find? (fun t => t.task_id == task_id) with
  | none => (.error "unknown_task_id", vs)
  | some _ =>
      let result : VisaSearchResult :=
        { task_id := task_id
          summary := some summary
          processing_time_hint := processing_time_hint
          fee_hint := fee_hint
          notes := notes }
      (.success, { vs with search_results := vs.search_results ++ [result] })

/-- `record_flight_search_result` (tools.py lines 917-990); the option
dicts are taken already parsed (the per-option `FlightOption(**opt)`
try/except is the identity in this model). -/
def record_flight_search_result (fs : FlightState) (task_id : String)
    (summary : String) (options : List FlightOption)
    (best_price_hint best_time_hint cheap_but_long_hint
      recommended_option_label notes chosen_option_type selection_reason :
      Option String) : ToolOutcome × FlightState :=
  match fs.search_tasks.find? (fun t => t.task_id == task_id) with
  | none => (.error "unknown_task_id", fs)
  | some _ =>
      let result : FlightSearchResult :=
        { task_id := task_id
          options := options
          summary := some summary
          best_price_hint := best_price_hint
          best_time_hint := best_time_hint
          cheap_but_long_hint := cheap_but_long_hint
          recommended_option_label := recommended_option_label
          notes := notes
          chosen_option_type := chosen_option_type
          selection_reason := selection_reason }
      (.success, { fs with search_results := fs.search_results ++ [result] })

/-! ## Visa result application (tools.py `apply_visa_search_results`) -/

/-- The lower-cased `summary + notes` corpus a result is mined over. -/
def resultCorpus (r : VisaSearchResult) : String :=
  String.intercalate " "
    ((if strTruthy r.summary then [toLowerStr (r.summary.getD "")] else []) ++
     (if strTruthy r.notes then [toLowerStr (r.notes.getD "")] else []))

/-- One pass of the `needs_visa` heuristic (tools.py lines 812-820): the
"no visa" phrases force `False`; otherwise the "visa required" phrases set
`True` only when the value is still unset. -/
def needsVisaStep (corpus : String) (cur : Option Bool) : Option Bool :=
  if substrB "no visa required" corpus || substrB "do not require a visa" corpus then
    some false
  else if substrB "visa required" corpus || substrB "require a visa" corpus then
    if cur == none then some true else cur
  else cur

/-- One pass of the `visa_type` heuristic (tools.py lines 822-830).
`visa_type = req.visa_type or None` first coerces a falsy value to `None`. -/
def visaTypeStep (corpus : String) (cur : Option String) : Option String :=
  let cur := if strTruthy cur then cur else none
  if substrB "standard visitor visa" corpus then some "Standard Visitor Visa"
  else if substrB "tourist visa" corpus then some "Tourist Visa"
  else if substrB "electronic travel authorization" corpus || substrB " eta " corpus then
    some "Electronic Travel Authorization (ETA)"
  else cur

/-- The per-(result, traveler) requirement update of
`apply_visa_search_results`.  The source contains the `needs_visa` and
`visa_type` heuristic blocks *twice* (duplicated code, tools.py lines
804-830 and 832-857), so each step is applied twice. -/
def updateRequirement (r : VisaSearchResult) (req : VisaRequirement) :
    VisaRequirement :=
  let corpus := resultCorpus r
  let nv := needsVisaStep corpus (needsVisaStep corpus req.needs_visa)
  let vt := visaTypeStep corpus (visaTypeStep corpus req.visa_type)
  let ptime := if strTruthy r.processing_time_hint then r.processing_time_hint
               else req.processing_time
  let cost := if strTruthy r.fee_hint then r.fee_hint else req.cost
  -- notes_chunks = summary.strip / notes.strip (truthy ones), joined "\n\n"
  let chunks :=
    (if strTruthy r.summary then [trimStr (r.summary.getD "")] else []) ++
    (if strTruthy r.notes then [trimStr (r.notes.getD "")] else [])
  let combined := String.intercalate "\n\n" (chunks.filter (fun c => c ≠ ""))
  let notes :=
    if combined ≠ "" then
      let existing := trimStr (req.additional_notes.getD "")
      if existing ≠ "" ∧ ¬ (substrB combined existing = true) then
        some (existing ++ "\n\n" ++ combined)
      else if existing = "" then some combined
      else req.additional_notes
    else req.additional_notes
  { req with
      needs_visa := nv
      visa_type := vt
      processing_time := ptime
      cost := cost
      additional_notes := notes }

/-- Minimal requirement created when a traveler covered by a task has no
`VisaRequirement` record yet. -/
def minimalRequirement (task : VisaSearchTask) (idx : Nat) : VisaRequirement :=
  { traveler_index := idx
    origin := task.origin_country
    destination := task.destination_country
    nationality := task.nationality
    needs_visa := none
    visa_type := none
    processing_time := none
    cost := none
    additional_notes := none }

/-- The numeric day hints a single result contributes inside the traveler
loop: `max(re.findall(r"\d+", hint))` when the hint is truthy and contains a
digit run. -/
def resultDayHint (r : VisaSearchResult) : Option Nat :=
  if strTruthy r.processing_time_hint then
    match extractNats (r.processing_time_hint.getD "") with
    | [] => none
    | ns => some (maxOfList ns)
  else none

/-- The body of the per-traveler loop: ensure a requirement exists for the
index, update (the last aliased copy of) it from the result, and append the
result's day hint to the accumulator.  The `requirements_by_traveler` dict
is built last-wins and aliases the list entries, so in-place mutation
updates the *last* list entry per index. -/
def visaTravelerStep (r : VisaSearchResult) (task : VisaSearchTask)
    (acc : List VisaRequirement × List Nat) (idx : Nat) :
    List VisaRequirement × List Nat :=
  let reqs :=
    if acc.1.any (fun q => q.traveler_index == idx) then acc.1
    else acc.1 ++ [minimalRequirement task idx]
  let reqs := updateLast (fun q => q.traveler_index == idx)
    (updateRequirement r) reqs
  (reqs, acc.2 ++ (resultDayHint r).toList)

/-- Processing of one `VisaSearchResult` inside `apply_visa_search_results`:
resolve its task (last-wins) and thread the accumulator through the
per-traveler loop; results without a matching task are skipped. -/
def processVisaResult (tasks : List VisaSearchTask)
    (acc : List VisaRequirement × List Nat) (r : VisaSearchResult) :
    List VisaRequirement × List Nat :=
  match findLast (fun t => t.task_id == r.task_id) tasks with
  | none => acc
  | some task => task.traveler_indexes.foldl (visaTravelerStep r task) acc

/-- `apply_visa_search_results` (tools.py lines 746-914); `today` is the
`date.today()` the earliest-safe-departure computation adds days to. -/
def apply_visa_search_results (today : Int) (vs : VisaState) :
    ToolOutcome × VisaState :=
  if vs.search_results.isEmpty then
    (.skipped "no_search_results", vs)
  else
    let acc := vs.search_results.foldl (processVisaResult vs.search_tasks)
      (vs.requirements, [])
    let esd :=
      if acc.2 ≠ [] then
        -- max_days = max(hints); max_days = max(1, min(max_days, 120))
        some (today + (Nat.max 1 (Nat.min (maxOfList acc.2) 120) : Nat))
      else vs.earliest_safe_departure_date
    (.success, { vs with requirements := acc.1, earliest_safe_departure_date := esd })

/-! ## Accommodation data model (accommodation_state.py) -/

/-- `AccommodationOption`, restricted to the canonical bucket, stay type and
name (the price/rating/amenity payload is carried through opaquely by every
verified function). -/
structure AccommodationOption where
  option_type : String
  stay_type : String
  name : Option String
deriving Repr, DecidableEq

/-- `AccommodationSearchTask` (location/date/preference payload beyond the
fields read by the verified functions is omitted, as is the generated
`prompt`). -/
structure AccommodationSearchTask where
  task_id : String
  traveler_indexes : List Nat
  location : Option String
deriving Repr, DecidableEq

/-- `AccommodationSearchResult` (`query` omitted). -/
structure AccommodationSearchResult where
  task_id : String
  options : List AccommodationOption
  summary : Option String
  best_price_hint : Option String
  best_location_hint : Option String
  family_friendly_hint : Option String
  neighborhood_hint : Option String
  recommended_option_label : Option String
  notes : Option String
  chosen_option_type : Option String
  selection_reason : Option String
deriving Repr, DecidableEq

/-- `TravelerAccommodationChoice`. -/
structure TravelerAccommodationChoice where
  traveler_index : Nat
  task_id : String
  summary : Option String
  best_price_hint : Option String
  best_location_hint : Option String
  family_friendly_hint : Option String
  neighborhood_hint : Option String
  recommended_option_label : Option String
  notes : Option String
  chosen_option_type : Option String
  selection_reason : Option String
  chosen_option : Option AccommodationOption
  other_options : List AccommodationOption
deriving Repr, DecidableEq

/-- `AccommodationState`. -/
structure AccommodationState where
  search_tasks : List AccommodationSearchTask
  search_results : List AccommodationSearchResult
  overall_summary : Option String
  traveler_accommodations : List TravelerAccommodationChoice
deriving Repr, DecidableEq

/-- `record_accommodation_search_result` (tools.py lines 1305-1385). -/
def record_accommodation_search_result (as' : AccommodationState)
    (task_id : String) (summary : String) (options : List AccommodationOption)
    (best_price_hint best_location_hint family_friendly_hint neighborhood_hint
      recommended_option_label notes chosen_option_type selection_reason :
      Option String) : ToolOutcome × AccommodationState :=
  match as'.search_tasks.find? (fun t => t.task_id == task_id) with
  | none => (.error "unknown_task_id", as')
  | some _ =>
      let result : AccommodationSearchResult :=
        { task_id := task_id
          options := options
          summary := some summary
          best_price_hint := best_price_hint
          best_location_hint := best_location_hint
          family_friendly_hint := family_friendly_hint
          neighborhood_hint := neighborhood_hint
          recommended_option_label := recommended_option_label
          notes := notes
          chosen_option_type := chosen_option_type
          selection_reason := selection_reason }
      (.success, { as' with search_results := as'.search_results ++ [result] })

/-! ## Option partitioning (the choice-reconciliation loop)

The loop shared verbatim by `apply_flight_search_results` (tools.py lines
1251-1263) and `apply_accommodation_search_results` (lines 1438-1450):
the first option matching the result's truthy `chosen_option_type` becomes
`chosen_option`, everything else goes to `other_options` in order; when no
option matched (or the type was unset/falsy), fall back to `options[0]`
and the tail. -/
def typeMatchesB (chosenType : Option String) (typ : String) : Bool :=
  strTruthy chosenType && (typ == chosenType.getD "")

/-- One iteration of the partition loop: the first matching option (while
none is chosen yet) becomes chosen, every other option is appended to the
alternatives. -/
def partitionStep (typeOf : α → String) (chosenType : Option String)
    (acc : Option α × List α) (opt : α) : Option α × List α :=
  if typeMatchesB chosenType (typeOf opt) && acc.1.isNone then
    (some opt, acc.2)
  else
    (acc.1, acc.2 ++ [opt])

def partitionOptions (typeOf : α → String) (chosenType : Option String)
    (opts : List α) : Option α × List α :=
  let scanned := opts.foldl (partitionStep typeOf chosenType) (none, [])
  match scanned.1 with
  | some c => (some c, scanned.2)
  | none =>
      match opts with
      | [] => (none, scanned.2)
      | o :: rest => (some o, rest)

/-! ## Flight result application (tools.py `apply_flight_search_results`) -/

/-- The `- Task {id}: ...` line of the overall summary for one flight
result (`none` when every part is missing, i.e. the line is dropped). -/
def flightSummaryLine (r : FlightSearchResult) : Option String :=
  let parts :=
    (if strTruthy r.summary then [trimStr (r.summary.getD "")] else []) ++
    (if strTruthy r.best_time_hint then ["Time hint: " ++ r.best_time_hint.getD ""] else []) ++
    (if strTruthy r.recommended_option_label then
      ["Recommended: " ++ r.recommended_option_label.getD ""] else [])
  let line := String.intercalate " " parts
  if line ≠ "" then some ("- Task " ++ r.task_id ++ ": " ++ line) else none

/-- The per-(traveler, task) `TravelerFlightChoice` built by the join. -/
def mkFlightChoice (traveler_index : Nat) (t : FlightSearchTask)
    (r : FlightSearchResult) : TravelerFlightChoice :=
  let part := partitionOptions FlightOption.option_type r.chosen_option_type r.options
  { traveler_index := traveler_index
    task_id := t.task_id
    summary := r.summary
    best_price_hint := r.best_price_hint
    best_time_hint := r.best_time_hint
    cheap_but_long_hint := r.cheap_but_long_hint
    recommended_option_label := r.recommended_option_label
    notes := r.notes
    chosen_option_type := r.chosen_option_type
    selection_reason := r.selection_reason
    chosen_option := part.1
    other_options := part.2 }

/-- `apply_flight_search_results` (tools.py lines 1203-1302).  The
`results_by_task` dict is built last-wins. -/
def apply_flight_search_results (fs : FlightState) (ps : PlannerState) :
    ToolOutcome × FlightState :=
  if fs.search_results.isEmpty then
    (.skipped "no_search_results", fs)
  else
    let lines := fs.search_results.filterMap flightSummaryLine
    let overall :=
      if lines ≠ [] then some (String.intercalate "\n" lines)
      else fs.overall_summary
    let n := ps.demographics.travelers.length
    let choices := ((List.range n).map (fun i =>
      fs.search_tasks.filterMap (fun t =>
        if i ∈ t.traveler_indexes then
          (findLast (fun r => r.task_id == t.task_id) fs.search_results).map
            (mkFlightChoice i t)
        else none))).flatten
    (.success,
      { fs with overall_summary := overall, traveler_flights := choices })

/-- The per-(traveler, task) `TravelerAccommodationChoice` built by the join. -/
def mkAccommodationChoice (traveler_index : Nat) (t : AccommodationSearchTask)
    (r : AccommodationSearchResult) : TravelerAccommodationChoice :=
  let part := partitionOptions AccommodationOption.option_type r.chosen_option_type r.options
  { traveler_index := traveler_index
    task_id := t.task_id
    summary := r.summary
    best_price_hint := r.best_price_hint
    best_location_hint := r.best_location_hint
    family_friendly_hint := r.family_friendly_hint
    neighborhood_hint := r.neighborhood_hint
    recommended_option_label := r.recommended_option_label
    notes := r.notes
    chosen_option_type := r.chosen_option_type
    selection_reason := r.selection_reason
    chosen_option := part.1
    other_options := part.2 }

/-- The `- Task {id}: ...` overall-summary line for one accommodation
result. -/
def accommodationSummaryLine (r : AccommodationSearchResult) : Option String :=
  let parts :=
    (if strTruthy r.summary then [trimStr (r.summary.getD "")] else []) ++
    (if strTruthy r.best_price_hint then ["Price hint: " ++ r.best_price_hint.getD ""] else []) ++
    (if strTruthy r.best_location_hint then
      ["Location hint: " ++ r.best_location_hint.getD ""] else []) ++
    (if strTruthy r.recommended_option_label then
      ["Recommended: " ++ r.recommended_option_label.getD ""] else [])
  let line := String.intercalate " " parts
  if line ≠ "" then some ("- Task " ++ r.task_id ++ ": " ++ line) else none

/-- `apply_accommodation_search_results` (tools.py lines 1388-1492). -/
def apply_accommodation_search_results (as' : AccommodationState)
    (ps : PlannerState) : ToolOutcome × AccommodationState :=
  if as'.search_results.isEmpty then
    (.skipped "no_search_results", as')
  else
    let lines := as'.search_results.filterMap accommodationSummaryLine
    let overall :=
      if lines ≠ [] then some (String.intercalate "\n" lines)
      else as'.overall_summary
    let n := ps.demographics.travelers.length
    let choices := ((List.range n).map (fun i =>
      as'.search_tasks.filterMap (fun t =>
        if i ∈ t.traveler_indexes then
          (findLast (fun r => r.task_id == t.task_id) as'.search_results).map
            (mkAccommodationChoice i t)
        else none))).flatten
    (.success,
      { as' with overall_summary := overall, traveler_accommodations := choices })

/-! ## Flight stub fallback (run.py `run_flight_search_pipeline`,
lines 1205-1273)

After the summarization loop, every task for which a summarization was
attempted but no `FlightSearchResult` got recorded receives a stub result
built from the canonical options computed deterministically in stage 1. -/

/-- The fallback summary string of the flight stub. -/
def flightStubSummary (t : FlightSearchTask) : String :=
  "Fallback summary for flights from " ++ orDefault t.origin_city "UNKNOWN ORIGIN" ++
  " to " ++ orDefault t.destination_city "UNKNOWN DESTINATION" ++
  " for travelers " ++ toString t.traveler_indexes ++
  ": structured flight options were fetched, but the summarization agent " ++
  "did not record a normalized result."

/-- The stub `FlightSearchResult` for one missing task (run.py lines
1241-1263); note `chosen_option_type=None` unconditionally. -/
def mkFlightStub (tid : String) (t : FlightSearchTask)
    (canon : List FlightOption) : FlightSearchResult :=
  { task_id := tid
    options := canon
    summary := some (flightStubSummary t)
    best_price_hint := none
    best_time_hint := none
    cheap_but_long_hint := none
    recommended_option_label := none
    notes := some ("Stub FlightSearchResult added by pipeline fallback; no " ++
      "structured FlightOption entries are attached.")
    chosen_option_type := none
    selection_reason := none }

/-- The post-summarization stub-creation step (run.py lines 1205-1273):
`attempted` is `summary_attempted_task_ids`, `canon` the
`canonical_flight_options_by_task` mapping (`.get(task_id) or []`); the
`tasks_by_id` dict is built last-wins and tasks without an entry are
skipped. -/
def flightStubFallback (attempted : List String)
    (canon : String → List FlightOption) (fs : FlightState) : FlightState :=
  if attempted.isEmpty then fs
  else
    let recorded := fs.search_results.map (fun r => r.task_id)
    let missing := attempted.filter (fun tid => !(recorded.contains tid))
    let stubs := missing.filterMap (fun tid =>
      (findLast (fun t => t.task_id == tid) fs.search_tasks).map
        (fun t => mkFlightStub tid t (canon tid)))
    { fs with search_results := fs.search_results ++ stubs }

/-! ## Itinerary chunk-and-dedupe filter (run.py `run_activity_pipeline`,
lines 2347-2542)

Phase 2 of each chunk deterministically turns the JSON items proposed by
the day-itinerary agent into `DayItineraryItem` entries, applying
validation, URL / name+city deduping (with a meal exemption) and a
per-date neighborhood cap, against running `seen` sets that are threaded
across chunks. -/

/-- `ActivityOption` (activity_state.py), the fields the itinerary filter
writes. -/
structure ActivityOption where
  name : String
  category : Option String
  location_label : Option String
  neighborhood : Option String
  city : Option String
  country : Option String
  url : Option String
  notes : Option String
deriving Repr, DecidableEq

/-- `DayItineraryItem` (activity_state.py). -/
structure DayItineraryItem where
  date : String
  slot : String
  traveler_indexes : List Nat
  task_id : String
  activity : ActivityOption
  notes : Option String
deriving Repr, DecidableEq

/-- One raw proposed item (a JSON dict); each field is `raw.get(...)`, with
`none` also standing for a non-string value (the `isinstance` checks reject
those). -/
structure RawItinItem where
  date : Option String
  slot : Option String
  name : Option String
  title : Option String
  label : Option String
  task_id : Option String
  traveler_indexes : Option (List Nat)
  city : Option String
  url : Option String
  neighborhood : Option String
  category : Option String
  location_label : Option String
  country : Option String
  notes : Option String
deriving Repr, DecidableEq

/-- `raw.get("name") or raw.get("title") or raw.get("label")`. -/
def rawName (raw : RawItinItem) : Option String :=
  pyOrS (pyOrS raw.name raw.title) raw.label

/-- `name.strip().lower()` of the effective name. -/
def rawNameNorm (raw : RawItinItem) : String :=
  toLowerStr (trimStr ((rawName raw).getD ""))

/-- `(raw.get("city") or "").strip().lower()`. -/
def rawCityNorm (raw : RawItinItem) : String :=
  toLowerStr (trimStr (raw.city.getD ""))

/-- `any(token in name_norm for token in ("breakfast", "lunch", "dinner"))`. -/
def rawIsMeal (raw : RawItinItem) : Bool :=
  substrB "breakfast" (rawNameNorm raw) || substrB "lunch" (rawNameNorm raw) ||
    substrB "dinner" (rawNameNorm raw)

/-- The `name_norm::city_norm` dedupe key. -/
def nameCityKey (raw : RawItinItem) : String :=
  rawNameNorm raw ++ "::" ++ rawCityNorm raw

/-- `(raw.get("neighborhood") or "").strip()`. -/
def rawNbhd (raw : RawItinItem) : String :=
  trimStr (raw.neighborhood.getD "")

/-- The running filter state: the accumulated itinerary, the two `seen`
sets, and the per-date neighborhood sets (empty for unseen dates, like the
`setdefault` dict). -/
structure ItinFilterState where
  accumulated : List DayItineraryItem
  seenByUrl : Finset String
  seenByNameCity : Finset String
  neighborhoodsByDate : String → Finset String

/-- Initial filter state for a trip that starts with an empty `day_plan`
(the seeding loop over existing items then adds nothing, and
`neighborhoods_by_date` always starts empty). -/
def emptyItinState : ItinFilterState :=
  { accumulated := []
    seenByUrl := ∅
    seenByNameCity := ∅
    neighborhoodsByDate := fun _ => ∅ }

/-- `slot_raw.strip().lower()`. -/
def rawSlotNorm (raw : RawItinItem) : String :=
  toLowerStr (trimStr (raw.slot.getD ""))

/-- The validation prefix of the per-item loop (run.py lines 2463-2474):
`date`/`slot` must be strings, the effective name a non-blank string, and
the normalized slot one of the three allowed values.  Every failed check is
a bare `continue`, so the checks collapse into one guard. -/
def itinValidB (raw : RawItinItem) : Bool :=
  raw.date.isSome && raw.slot.isSome && (rawName raw).isSome &&
  !((trimStr ((rawName raw).getD "")) == "") &&
  (rawSlotNorm raw == "morning" || rawSlotNorm raw == "afternoon" ||
    rawSlotNorm raw == "evening")

/-- The accepted `DayItineraryItem` built from a raw item (run.py lines
2514-2532). -/
def mkItinItem (numTravelers : Nat) (raw : RawItinItem) : DayItineraryItem :=
  { date := raw.date.getD ""
    slot := rawSlotNorm raw
    traveler_indexes :=
      match raw.traveler_indexes with
      | some l => if l.isEmpty then List.range numTravelers else l
      | none => List.range numTravelers
    task_id := orDefault raw.task_id "*"
    activity :=
      { name := trimStr ((rawName raw).getD "")
        category := raw.category
        location_label := raw.location_label
        neighborhood := raw.neighborhood
        city := raw.city
        country := raw.country
        url := raw.url
        notes := raw.notes }
    notes := raw.notes }

/-- Acceptance of one raw item (run.py lines 2514-2539): append the built
item and register the URL / name-key and neighborhood into the running sets
before the next item is processed. -/
def itinAccept (numTravelers : Nat) (st : ItinFilterState)
    (raw : RawItinItem) : ItinFilterState :=
  { accumulated := st.accumulated ++ [mkItinItem numTravelers raw]
    seenByUrl :=
      if strTruthy raw.url then insert (raw.url.getD "") st.seenByUrl
      else st.seenByUrl
    seenByNameCity :=
      if ¬ (strTruthy raw.url = true) ∧ ¬ (rawIsMeal raw = true) then
        insert (nameCityKey raw) st.seenByNameCity
      else st.seenByNameCity
    neighborhoodsByDate :=
      if rawNbhd raw ≠ "" then
        fun d => if d = raw.date.getD "" then
            insert (rawNbhd raw) (st.neighborhoodsByDate d)
          else st.neighborhoodsByDate d
      else st.neighborhoodsByDate }

/-- The per-item acceptance filter (run.py lines 2459-2542): validation,
URL / name+city dedupe with the meal exemption, neighborhood cap, then
acceptance with registration of the keys before the next item is
processed. -/
def itineraryStep (numTravelers : Nat) (st : ItinFilterState)
    (raw : RawItinItem) : ItinFilterState :=
  if !(itinValidB raw) then st
  else if strTruthy raw.url ∧ raw.url.getD "" ∈ st.seenByUrl then st
  else if ¬ (strTruthy raw.url = true) ∧ ¬ (rawIsMeal raw = true) ∧
      nameCityKey raw ∈ st.seenByNameCity then st
  else if rawNbhd raw ≠ "" ∧ rawNbhd raw ∉ st.neighborhoodsByDate (raw.date.getD "") ∧
      2 ≤ (st.neighborhoodsByDate (raw.date.getD "")).card then st
  else itinAccept numTravelers st raw

/-- Processing a list of chunks: each chunk's items are filtered in order
against the running state, which persists across chunks. -/
def processChunks (numTravelers : Nat) (st : ItinFilterState)
    (chunks : List (List RawItinItem)) : ItinFilterState :=
  chunks.foldl (fun st chunk => chunk.foldl (itineraryStep numTravelers) st) st

/-- The distinct non-empty (stripped) neighborhoods mentioned by the
accepted items of one date. -/
def acceptedNbhds (items : List DayItineraryItem) (d : String) : Finset String :=
  ((items.filter (fun it => it.date == d)).filterMap (fun it =>
    let s := trimStr (it.activity.neighborhood.getD "")
    if s = "" then none else some s)).toFinset

/-! ## Derived notions used in claim statements and proofs -/

/-- The `(origin, destination)` groups of the flight tasks of a state. -/
def taskKeys (fs : FlightState) : List (Option String × Option String) :=
  fs.search_tasks.map taskKey

/-- A visa result whose `processing_time_hint` actually reaches the
`processing_day_hints` aggregation: its `task_id` resolves (last-wins) to a
task with a non-empty traveler list, and the truthy hint contains a digit
run. -/
def hintProcessedB (tasks : List VisaSearchTask) (r : VisaSearchResult) : Bool :=
  (match findLast (fun t => t.task_id == r.task_id) tasks with
   | some t => !t.traveler_indexes.isEmpty
   | none => false) && (resultDayHint r).isSome

/-- Declarative day-hint collection: the per-hint maxima of the processed
results, in order (the claim's "max per hint"); its `maxOfList` is the
claim's "max across all hints". -/
def dayHintMaxes (vs : VisaState) : List Nat :=
  (vs.search_results.filter (hintProcessedB vs.search_tasks)).filterMap resultDayHint

/-- The day hints one result contributes to the accumulator (once per
covered traveler, as in the source's traveler loop). -/
def hintContrib (tasks : List VisaSearchTask) (r : VisaSearchResult) : List Nat :=
  match findLast (fun t => t.task_id == r.task_id) tasks with
  | none => []
  | some task => (task.traveler_indexes.map (fun _ => (resultDayHint r).toList)).flatten

/-! ## Concrete fixtures used by witnesses and counterexamples -/

def emptyFlightState : FlightState :=
  { search_tasks := [], search_results := [], overall_summary := none,
    traveler_flights := [] }

def emptyVisaState : VisaState :=
  { requirements := [], overall_summary := none, search_tasks := [],
    search_results := [], earliest_safe_departure_date := none }

def emptyAccommodationState : AccommodationState :=
  { search_tasks := [], search_results := [], overall_summary := none,
    traveler_accommodations := [] }

/-- A one-traveler planner for a LOS → LHR trip with the given day-number
dates and flexibility flag. -/
def plannerLHR (startD endD : Int) (flex : Bool) : PlannerState :=
  { trip_details :=
      { destination := some "London", origin := some "LOS",
        origin_airport_code := some "LOS", destination_airport_code := some "LHR",
        start_date := some startD, end_date := some endD,
        flexible_dates := some flex }
    demographics := { travelers := [{ origin := some "LOS", origin_airport_code := none }] }
    preferences := { budget_mode := some "standard" } }

/-- The task that flight derivation produces for `plannerLHR 0 10 false`
with earliest safe departure day 3 on an empty flight state. -/
def derivedTaskLOS : FlightSearchTask :=
  mkFlightTask 0 (some "standard") (some 0) (some 10) (some 3) (some 10) true
    0 (some "LOS", "LHR") [0]

/-- A concrete flight task used as a fixture. -/
def sampleFlightTask : FlightSearchTask :=
  { task_id := "flight_LOS_LHR_0"
    traveler_indexes := [0]
    origin_city := some "LOS"
    destination_city := some "LHR"
    original_departure_date := some 0
    original_return_date := some 10
    recommended_departure_date := some 0
    recommended_return_date := some 10
    visa_timeline_reason := none
    cabin_preference := some "economy"
    budget_mode := some "standard" }

/-- A concrete balanced canonical flight option. -/
def balancedFlightOption : FlightOption :=
  { option_type := "balanced"
    airlines := ["BA"]
    currency := some "USD"
    price_per_ticket_low := some 900
    price_per_ticket_high := some 1200
    total_price_low := some 900
    total_price_high := some 1200
    notes := none }

/-- A canonical-options map that yields one balanced option for every task. -/
def canonBalanced : String → List FlightOption :=
  fun _ => [balancedFlightOption]

/-- A concrete cheapest canonical flight option. -/
def cheapFlightOption : FlightOption :=
  { option_type := "cheapest"
    airlines := ["XQ"]
    currency := some "USD"
    price_per_ticket_low := some 400
    price_per_ticket_high := some 500
    total_price_low := some 400
    total_price_high := some 500
    notes := none }

/-- A concrete fastest canonical flight option. -/
def fastFlightOption : FlightOption :=
  { option_type := "fastest"
    airlines := ["BA"]
    currency := some "USD"
    price_per_ticket_low := some 800
    price_per_ticket_high := some 950
    total_price_low := some 800
    total_price_high := some 950
    notes := none }

/-- A concrete flight result for `sampleFlightTask` choosing the fastest
option. -/
def sampleFlightResult : FlightSearchResult :=
  { task_id := "flight_LOS_LHR_0"
    options := [cheapFlightOption, fastFlightOption]
    summary := some "BA nonstop typical"
    best_price_hint := none
    best_time_hint := some "7h nonstop"
    cheap_but_long_hint := none
    recommended_option_label := none
    notes := none
    chosen_option_type := some "fastest"
    selection_reason := none }

/-- A flight state holding `sampleFlightTask` and `sampleFlightResult`. -/
def sampleFlightState : FlightState :=
  { search_tasks := [sampleFlightTask]
    search_results := [sampleFlightResult]
    overall_summary := none
    traveler_flights := [] }

/-- A concrete visa task covering traveler 0. -/
def sampleVisaTask : VisaSearchTask :=
  { task_id := "visa_Nigerian_United Kingdom_0"
    traveler_indexes := [0]
    origin_country := some "Nigeria"
    destination_country := some "United Kingdom"
    nationality := some "Nigerian" }

/-- A concrete visa result with a 15-day processing hint. -/
def sampleVisaResult : VisaSearchResult :=
  { task_id := "visa_Nigerian_United Kingdom_0"
    summary := some "Standard Visitor Visa required for Nigerian citizens."
    processing_time_hint := some "15 working days"
    fee_hint := some "about 115 GBP"
    notes := none }

/-- A visa state holding `sampleVisaTask` and `sampleVisaResult`. -/
def sampleVisaState : VisaState :=
  { requirements := []
    overall_summary := none
    search_tasks := [sampleVisaTask]
    search_results := [sampleVisaResult]
    earliest_safe_departure_date := none }

/-- The per-date neighborhood invariant: every date's registered
neighborhood set has at most two entries and covers the neighborhoods of
the accepted items of that date. -/
def nbhdInvariant (st : ItinFilterState) : Prop :=
  ∀ d, (st.neighborhoodsByDate d).card ≤ 2 ∧
    acceptedNbhds st.accumulated d ⊆ st.neighborhoodsByDate d

/-- A proposed museum visit with a URL and a neighborhood. -/
def itinRawMuseum : RawItinItem :=
  { date := some "2025-12-02", slot := some "Morning", name := some "British Museum"
    title := none, label := none, task_id := some "act_0"
    traveler_indexes := some [0, 1], city := some "London"
    url := some "https://museum.example/bm", neighborhood := some "Bloomsbury"
    category := some "museum", location_label := none, country := some "UK"
    notes := none }

/-- A proposed no-URL hotel breakfast on the first date. -/
def itinRawBreakfast1 : RawItinItem :=
  { date := some "2025-12-02", slot := some "morning", name := some "Hotel breakfast"
    title := none, label := none, task_id := none
    traveler_indexes := none, city := some "London"
    url := none, neighborhood := none
    category := some "meal", location_label := none, country := some "UK"
    notes := none }

/-- The same breakfast proposed again on the next date. -/
def itinRawBreakfast2 : RawItinItem :=
  { itinRawBreakfast1 with date := some "2025-12-03" }

/-- A no-URL attraction whose name+city key collides with a seeded key. -/
def itinRawNoUrl : RawItinItem :=
  { date := some "2025-12-02", slot := some "afternoon", name := some "Hyde Park"
    title := none, label := none, task_id := none
    traveler_indexes := none, city := some "London"
    url := none, neighborhood := none
    category := none, location_label := none, country := none
    notes := none }

/-- An item naming a third neighborhood on an already two-neighborhood
date. -/
def itinRawThirdNbhd : RawItinItem :=
  { date := some "2025-12-02", slot := some "evening", name := some "Sky Garden"
    title := none, label := none, task_id := none
    traveler_indexes := none, city := some "London"
    url := none, neighborhood := some "City of London"
    category := none, location_label := none, country := none
    notes := none }

/-- A filter state pre-seeded with the museum URL and the Hyde Park
name+city key. -/
def seededItinState : ItinFilterState :=
  { accumulated := []
    seenByUrl := {"https://museum.example/bm"}
    seenByNameCity := {"hyde park::london"}
    neighborhoodsByDate := fun _ => ∅ }

/-- A filter state whose first date already carries two distinct
neighborhoods. -/
def twoNbhdItinState : ItinFilterState :=
  { accumulated := []
    seenByUrl := ∅
    seenByNameCity := ∅
    neighborhoodsByDate := fun d =>
      if d = "2025-12-02" then {"Bloomsbury", "Soho"} else ∅ }

/-! ## Theorems -/

/-- A first-match task lookup fails exactly when no task carries the id. -/
theorem find_task_eq_none {β : Type} (key : β → String) (l : List β) (tid : String)
    (h : ∀ t ∈ l, key t ≠ tid) : l.find? (fun t => key t == tid) = none := by
  rw [List.find?_eq_none]
  intro t ht
  simpa using h t ht

/-- Claim C4: recording a result against a `task_id` not present in the
domain's `search_tasks` returns an `unknown_task_id` error and leaves the
domain state (in particular `search_results`) unchanged, for the flight,
visa and accommodation recording tools alike. -/
theorem C4_unknown_task_id_rejected
    (fs : FlightState) (vs : VisaState) (as' : AccommodationState) (tid : String)
    (sum : String) (fopts : List FlightOption) (aopts : List AccommodationOption)
    (p1 p2 p3 p4 p5 p6 p7 q1 q2 q3 r1 r2 r3 r4 r5 r6 r7 r8 : Option String)
    (hf : ∀ t ∈ fs.search_tasks, t.task_id ≠ tid)
    (hv : ∀ t ∈ vs.search_tasks, t.task_id ≠ tid)
    (ha : ∀ t ∈ as'.search_tasks, t.task_id ≠ tid) :
    record_flight_search_result fs tid sum fopts p1 p2 p3 p4 p5 p6 p7 =
      (.error "unknown_task_id", fs) ∧
    record_visa_search_result vs tid sum q1 q2 q3 =
      (.error "unknown_task_id", vs) ∧
    record_accommodation_search_result as' tid sum aopts r1 r2 r3 r4 r5 r6 r7 r8 =
      (.error "unknown_task_id", as') := by
  refine ⟨?_, ?_, ?_⟩
  · unfold record_flight_search_result
    rw [find_task_eq_none FlightSearchTask.task_id fs.search_tasks tid hf]
  · unfold record_visa_search_result
    rw [find_task_eq_none VisaSearchTask.task_id vs.search_tasks tid hv]
  · unfold record_accommodation_search_result
    rw [find_task_eq_none AccommodationSearchTask.task_id as'.search_tasks tid ha]

/-- Witness for C4: a concrete unknown id against concretely populated
states is rejected by all three tools. -/
theorem C4_unknown_task_id_rejected_witness :
    record_flight_search_result
        { emptyFlightState with search_tasks := [sampleFlightTask] }
        "nope" "sum" [] none none none none none none none =
      (.error "unknown_task_id",
        { emptyFlightState with search_tasks := [sampleFlightTask] }) ∧
    record_visa_search_result emptyVisaState "nope" "sum" none none none =
      (.error "unknown_task_id", emptyVisaState) ∧
    record_accommodation_search_result emptyAccommodationState "nope" "sum" []
        none none none none none none none none =
      (.error "unknown_task_id", emptyAccommodationState) :=
  C4_unknown_task_id_rejected _ _ _ "nope" "sum" [] []
    none none none none none none none none none none none none none none none none none none
    (by decide) (by decide) (by decide)

/-- Claim C10: the flight / accommodation apply step writes only
`overall_summary` and the per-traveler choice list; `search_tasks` and
`search_results` are identical before and after, and with no
`search_results` the call is skipped and the whole state is unchanged. -/
theorem C10_apply_frame
    (fs : FlightState) (ps : PlannerState) (as' : AccommodationState)
    (ps₂ : PlannerState) :
    ((apply_flight_search_results fs ps).2.search_tasks = fs.search_tasks ∧
     (apply_flight_search_results fs ps).2.search_results = fs.search_results) ∧
    (fs.search_results = [] →
      apply_flight_search_results fs ps = (.skipped "no_search_results", fs)) ∧
    ((apply_accommodation_search_results as' ps₂).2.search_tasks = as'.search_tasks ∧
     (apply_accommodation_search_results as' ps₂).2.search_results = as'.search_results) ∧
    (as'.search_results = [] →
      apply_accommodation_search_results as' ps₂ = (.skipped "no_search_results", as')) := by
  refine ⟨⟨?_, ?_⟩, ?_, ⟨?_, ?_⟩, ?_⟩
  · unfold apply_flight_search_results; split <;> rfl
  · unfold apply_flight_search_results; split <;> rfl
  · intro h
    unfold apply_flight_search_results
    rw [if_pos (by simp [h])]
  · unfold apply_accommodation_search_results; split <;> rfl
  · unfold apply_accommodation_search_results; split <;> rfl
  · intro h
    unfold apply_accommodation_search_results
    rw [if_pos (by simp [h])]

/-- Witness for C10: concrete empty-result states are skipped unchanged,
and a state with one result keeps its tasks/results through apply. -/
theorem C10_apply_frame_witness :
    ((apply_flight_search_results emptyFlightState (plannerLHR 0 10 false)).2.search_tasks =
        emptyFlightState.search_tasks ∧
     (apply_flight_search_results emptyFlightState (plannerLHR 0 10 false)).2.search_results =
        emptyFlightState.search_results) ∧
    (emptyFlightState.search_results = [] →
      apply_flight_search_results emptyFlightState (plannerLHR 0 10 false) =
        (.skipped "no_search_results", emptyFlightState)) ∧
    ((apply_accommodation_search_results emptyAccommodationState (plannerLHR 0 10 false)).2.search_tasks =
        emptyAccommodationState.search_tasks ∧
     (apply_accommodation_search_results emptyAccommodationState (plannerLHR 0 10 false)).2.search_results =
        emptyAccommodationState.search_results) ∧
    (emptyAccommodationState.search_results = [] →
      apply_accommodation_search_results emptyAccommodationState (plannerLHR 0 10 false) =
        (.skipped "no_search_results", emptyAccommodationState)) :=
  C10_apply_frame emptyFlightState (plannerLHR 0 10 false) emptyAccommodationState
    (plannerLHR 0 10 false)

/-- When the visa-safe departure is strictly later than the (present)
original departure and a return date exists, the date shift yields the
safe date as departure and the three-way-branch return. -/
theorem visaAwareDates_shift (dep ret safe : Int) (flex : Bool) (h : dep < safe) :
    visaAwareDates (some dep) (some ret) (some safe) flex =
      (some safe,
       if safe ≥ ret then some (safe + (if ret - dep ≤ 0 then 3 else ret - dep))
       else if flex then some (safe + (ret - dep))
       else some ret,
       true) := by
  simp only [visaAwareDates]
  rw [if_pos h]
  split_ifs <;> rfl

/-- Claim C1 is false as stated: for a 1-day trip (departure day 0, return
day 1) with earliest safe departure on day 1 (= the original return), the
code extends the return only by the original trip length (1 day), not by
`max(original_trip_length, 3 days) = 3 days` as the claim requires. -/
theorem C1_recommended_dates_counterexample :
    ((derive_flight_search_tasks (plannerLHR 0 1 false) (some 1)
        emptyFlightState).2.search_tasks.map
      (fun t => (t.recommended_departure_date, t.recommended_return_date))) =
      [(some 1, some 2)] ∧
    (1 : Int) + max ((1 : Int) - 0) 3 = 4 ∧
    some (2 : Int) ≠ some (4 : Int) := by
  refine ⟨by decide, ?_, by decide⟩
  norm_num

/-- Claim C1 (amended): when the visa-safe departure is strictly later than
the original departure and a return date exists, every derived task gets
`recommended_departure = safe departure`, and the return follows the
three-way branch with the first branch amended to: if the safe departure is
on or after the original return, the return becomes the recommended
departure plus the *original trip length* when that is positive, and plus 3
days only when the original length is zero or negative (so 1- and 2-day
trips keep their 1- or 2-day length); else if dates are flexible the return
shifts by the departure delta (trip length preserved); else the original
return is kept. -/
theorem C1_recommended_dates_amended
    (ps : PlannerState) (earliest : Option Int) (fs : FlightState)
    (dep ret safe : Int)
    (hdep : ps.trip_details.start_date = some dep)
    (hret : ps.trip_details.end_date = some ret)
    (hsafe : earliest = some safe)
    (hgt : dep < safe)
    (t : FlightSearchTask)
    (ht : t ∈ (derive_flight_search_tasks ps earliest fs).2.search_tasks.drop
      fs.search_tasks.length) :
    t.recommended_departure_date = some safe ∧
    t.recommended_return_date =
      (if safe ≥ ret then some (safe + (if ret - dep ≤ 0 then 3 else ret - dep))
       else if ps.trip_details.flexible_dates = some true then
         some (safe + (ret - dep))
       else some ret) ∧
    (ps.trip_details.flexible_dates = some true → safe < ret →
      ∃ rr, t.recommended_return_date = some rr ∧ rr - safe = ret - dep) := by
  simp only [derive_flight_search_tasks] at ht
  split at ht
  · simp [List.drop_length] at ht
  · split at ht
    · simp [List.drop_length] at ht
    · simp only [hdep, hret, hsafe] at ht
      rw [visaAwareDates_shift dep ret safe _ hgt] at ht
      simp only [List.drop_left] at ht
      rcases List.mem_map.mp ht with ⟨g, _, rfl⟩
      refine ⟨rfl, ?_, ?_⟩
      · show (if safe ≥ ret then some (safe + (if ret - dep ≤ 0 then 3 else ret - dep))
             else if (ps.trip_details.flexible_dates == some true) = true then
               some (safe + (ret - dep))
             else some ret) = _
        by_cases h1 : safe ≥ ret
        · simp [h1]
        · by_cases h2 : ps.trip_details.flexible_dates = some true
          · simp [h1, h2]
          · have h2' : (ps.trip_details.flexible_dates == some true) = false := by
              simpa using h2
            simp [h1, h2, h2']
      · intro hflex hlt
        refine ⟨safe + (ret - dep), ?_, by ring⟩
        show (if safe ≥ ret then some (safe + (if ret - dep ≤ 0 then 3 else ret - dep))
             else if (ps.trip_details.flexible_dates == some true) = true then
               some (safe + (ret - dep))
             else some ret) = _
        rw [if_neg (by exact not_le.mpr hlt), if_pos (by simpa using hflex)]

/-- Witness for C1 (amended): a LOS → LHR trip over days 0-10 with safe
departure day 3 and inflexible dates yields recommended departure day 3 and
keeps the original return day 10. -/
theorem C1_recommended_dates_amended_witness :
    derivedTaskLOS.recommended_departure_date = some 3 ∧
    derivedTaskLOS.recommended_return_date = some 10 := by
  have h := C1_recommended_dates_amended (plannerLHR 0 10 false) (some 3)
    emptyFlightState 0 10 3 rfl rfl rfl (by decide) derivedTaskLOS (by decide)
  refine ⟨h.1, ?_⟩
  rw [h.2.1]
  decide

/-- Claim C2 is false as stated: a flight task that reached summarization
with one canonical (balanced) option but no recorded result gets a stub
whose `chosen_option_type` is `none`, not `"balanced"`, even though
canonical options exist. -/
theorem C2_stub_chosen_type_counterexample :
    ((flightStubFallback ["flight_LOS_LHR_0"] canonBalanced
        { emptyFlightState with search_tasks := [sampleFlightTask] }).search_results.map
      (fun r => (r.options.length, r.chosen_option_type))) = [(1, none)] := by
  decide

/-- Claim C2 (amended): for every flight task that reached the
summarization stage but has no recorded result, the pipeline appends a stub
`FlightSearchResult` carrying exactly the canonical options computed in
stage 1 and the labelled fallback summary, with `chosen_option_type`
*always* unset (`none`) — the "default to balanced when canonical options
exist" behaviour exists only in the accommodation pipeline's stub, not the
flight one; previously recorded results are left in place. -/
theorem C2_flight_stub_fallback_amended (attempted : List String)
    (canon : String → List FlightOption) (fs : FlightState)
    (tid : String) (t : FlightSearchTask)
    (hmem : tid ∈ attempted)
    (htask : findLast (fun u => u.task_id == tid) fs.search_tasks = some t)
    (hnores : ∀ r ∈ fs.search_results, r.task_id ≠ tid) :
    fs.search_results <+: (flightStubFallback attempted canon fs).search_results ∧
    ∃ r ∈ (flightStubFallback attempted canon fs).search_results,
      r.task_id = tid ∧ r.options = canon tid ∧
      r.summary = some (flightStubSummary t) ∧
      r.chosen_option_type = none := by
  have hne : ¬ (attempted.isEmpty = true) := by
    cases attempted with
    | nil => cases hmem
    | cons a l => simp
  have hnotin : tid ∉ fs.search_results.map (fun r => r.task_id) := by
    intro hx
    rcases List.mem_map.mp hx with ⟨r, hr, hrid⟩
    exact hnores r hr hrid
  have hcont : ((fs.search_results.map (fun r => r.task_id)).contains tid) = false := by
    simpa using hnores
  unfold flightStubFallback
  rw [if_neg hne]
  refine ⟨List.prefix_append _ _, mkFlightStub tid t (canon tid), ?_, rfl, rfl, rfl, rfl⟩
  exact List.mem_append_right _ (List.mem_filterMap.mpr
    ⟨tid, List.mem_filter.mpr ⟨hmem, by rw [hcont]; rfl⟩, by rw [htask]; rfl⟩)

/-- Witness for C2 (amended): the concrete one-task state with one balanced
canonical option receives exactly the stub with those options, the fallback
summary and an unset chosen type. -/
theorem C2_flight_stub_fallback_amended_witness :
    ({ emptyFlightState with search_tasks := [sampleFlightTask] } : FlightState).search_results <+:
      (flightStubFallback ["flight_LOS_LHR_0"] canonBalanced
        { emptyFlightState with search_tasks := [sampleFlightTask] }).search_results ∧
    ∃ r ∈ (flightStubFallback ["flight_LOS_LHR_0"] canonBalanced
        { emptyFlightState with search_tasks := [sampleFlightTask] }).search_results,
      r.task_id = "flight_LOS_LHR_0" ∧ r.options = canonBalanced "flight_LOS_LHR_0" ∧
      r.summary = some (flightStubSummary sampleFlightTask) ∧
      r.chosen_option_type = none :=
  C2_flight_stub_fallback_amended ["flight_LOS_LHR_0"] canonBalanced
    { emptyFlightState with search_tasks := [sampleFlightTask] }
    "flight_LOS_LHR_0" sampleFlightTask (by decide) (by decide) (by simp [emptyFlightState])

/-- An explicit `False` value of `needs_visa` survives any further mining
pass, whatever the corpus says. -/
theorem needsVisaStep_false (s : String) :
    needsVisaStep s (some false) = some false := by
  unfold needsVisaStep
  split_ifs <;> simp_all

/-- Claim C6: in the visa apply step's text mining, the "no visa" phrases
force `needs_visa := False`; otherwise the "visa required" phrases set it to
`True` only when it is still unset; and once `False`, no later
`True`-triggering corpus ever overwrites it (also across a whole sequence of
mining passes). -/
theorem C6_needs_visa_precedence (corpus : String) (cur : Option Bool)
    (corpora : List String) :
    ((substrB "no visa required" corpus || substrB "do not require a visa" corpus) = true →
      needsVisaStep corpus cur = some false) ∧
    ((substrB "no visa required" corpus || substrB "do not require a visa" corpus) = false →
      (substrB "visa required" corpus || substrB "require a visa" corpus) = true →
      cur = none → needsVisaStep corpus cur = some true) ∧
    (cur = some false → needsVisaStep corpus cur = some false) ∧
    (corpora.foldl (fun c s => needsVisaStep s c) (some false) = some false) := by
  refine ⟨?_, ?_, ?_, ?_⟩
  · intro h
    unfold needsVisaStep
    rw [if_pos h]
  · intro h1 h2 h3
    unfold needsVisaStep
    rw [if_neg (by simp [h1]), if_pos h2]
    simp [h3]
  · intro h
    subst h
    exact needsVisaStep_false corpus
  · induction corpora with
    | nil => rfl
    | cons a l ih => simpa [needsVisaStep_false] using ih

/-- Witness for C6: concrete corpora exercise all four parts — forcing
`False`, setting `True` from unset, preserving `False` against a
`True`-trigger, and preserving `False` across a pass sequence. -/
theorem C6_needs_visa_precedence_witness :
    needsVisaStep "summary: no visa required." (some true) = some false ∧
    needsVisaStep "summary: visa required." none = some true ∧
    needsVisaStep "summary: visa required." (some false) = some false ∧
    (["summary: visa required", "note: you require a visa"].foldl
      (fun c s => needsVisaStep s c) (some false) = some false) :=
  ⟨(C6_needs_visa_precedence "summary: no visa required." (some true) []).1 (by decide),
   (C6_needs_visa_precedence "summary: visa required." none []).2.1
     (by decide) (by decide) rfl,
   (C6_needs_visa_precedence "summary: visa required." (some false) []).2.2.1 rfl,
   (C6_needs_visa_precedence "x" none
     ["summary: visa required", "note: you require a visa"]).2.2.2⟩

/-- Once an option is chosen, the rest of the partition loop only appends
alternatives in order. -/
theorem foldl_partitionStep_found {α : Type} (typeOf : α → String)
    (ct : Option String) (c : α) :
    ∀ (opts acc : List α),
      opts.foldl (partitionStep typeOf ct) (some c, acc) = (some c, acc ++ opts) := by
  intro opts
  induction opts with
  | nil => intro acc; simp
  | cons o rest ih =>
      intro acc
      have hstep : partitionStep typeOf ct (some c, acc) o = (some c, acc ++ [o]) := by
        unfold partitionStep
        simp
      simp only [List.foldl_cons, hstep, ih]
      simp

/-- While no option has matched, the partition loop appends every
non-matching option to the alternatives. -/
theorem foldl_partitionStep_none {α : Type} (typeOf : α → String)
    (ct : Option String) :
    ∀ (opts : List α), (∀ x ∈ opts, typeMatchesB ct (typeOf x) = false) →
      ∀ acc, opts.foldl (partitionStep typeOf ct) (none, acc) = (none, acc ++ opts) := by
  intro opts
  induction opts with
  | nil => intro _ acc; simp
  | cons o rest ih =>
      intro h acc
      have hstep : partitionStep typeOf ct (none, acc) o = (none, acc ++ [o]) := by
        unfold partitionStep
        rw [h o (List.mem_cons_self o rest)]
        simp
      simp only [List.foldl_cons, hstep]
      rw [ih (fun x hx => h x (List.mem_cons_of_mem o hx)) (acc ++ [o])]
      simp

/-- Claim C5: in the apply step, for every (traveler, task) pair whose task
has a (last-wins) result, the partition of the result's options is: the
first option matching the truthy `chosen_option_type` becomes chosen with
all other options as alternatives in original order; with no match, or an
unset chosen type, the head option is chosen and the tail are the
alternatives; and the join appends exactly this choice record to
`traveler_flights`. -/
theorem C5_choice_reconciliation {α : Type} (typeOf : α → String)
    (ct : Option String) (l1 l2 : List α) (o : α)
    (fs : FlightState) (ps : PlannerState) (i : Nat) (t : FlightSearchTask)
    (r : FlightSearchResult) :
    ((∀ x ∈ l1, typeMatchesB ct (typeOf x) = false) →
      typeMatchesB ct (typeOf o) = true →
      partitionOptions typeOf ct (l1 ++ o :: l2) = (some o, l1 ++ l2)) ∧
    ((∀ x ∈ o :: l2, typeMatchesB ct (typeOf x) = false) →
      partitionOptions typeOf ct (o :: l2) = (some o, l2)) ∧
    (strTruthy ct = false →
      partitionOptions typeOf ct (o :: l2) = (some o, l2)) ∧
    (i < ps.demographics.travelers.length → t ∈ fs.search_tasks →
      i ∈ t.traveler_indexes →
      findLast (fun u => u.task_id == t.task_id) fs.search_results = some r →
      mkFlightChoice i t r ∈ (apply_flight_search_results fs ps).2.traveler_flights ∧
      (mkFlightChoice i t r).chosen_option =
        (partitionOptions FlightOption.option_type r.chosen_option_type r.options).1 ∧
      (mkFlightChoice i t r).other_options =
        (partitionOptions FlightOption.option_type r.chosen_option_type r.options).2) := by
  have hmatchless : ∀ (opts : List α), (∀ x ∈ opts, typeMatchesB ct (typeOf x) = false) →
      opts.foldl (partitionStep typeOf ct) (none, []) = (none, opts) := by
    intro opts h
    simpa using foldl_partitionStep_none typeOf ct opts h []
  refine ⟨?_, ?_, ?_, ?_⟩
  · intro hl1 ho
    unfold partitionOptions
    rw [List.foldl_append]
    rw [hmatchless l1 hl1]
    have hstep : partitionStep typeOf ct (none, l1) o = (some o, l1) := by
      unfold partitionStep
      rw [ho]
      simp
    simp only [List.foldl_cons, hstep, foldl_partitionStep_found]
  · intro h
    unfold partitionOptions
    rw [hmatchless (o :: l2) h]
  · intro h
    unfold partitionOptions
    rw [hmatchless (o :: l2) (fun x _ => by unfold typeMatchesB; rw [h]; rfl)]
  · intro hi ht hidx hres
    have hne : fs.search_results ≠ [] := by
      intro h0
      rw [h0] at hres
      cases hres
    refine ⟨?_, rfl, rfl⟩
    unfold apply_flight_search_results
    rw [if_neg (by simpa [List.isEmpty_iff] using hne)]
    exact List.mem_flatten.mpr
      ⟨_, List.mem_map.mpr ⟨i, List.mem_range.mpr hi, rfl⟩,
        List.mem_filterMap.mpr ⟨t, ht, by rw [if_pos hidx, hres]; rfl⟩⟩

/-- Witness for C5: a concrete three-option list partitions around the
matching fastest option; a non-matching and an unset chosen type both fall
back to the head option; and the concrete one-traveler join contains the
corresponding choice record. -/
theorem C5_choice_reconciliation_witness :
    partitionOptions FlightOption.option_type (some "fastest")
      ([cheapFlightOption] ++ fastFlightOption :: [balancedFlightOption]) =
      (some fastFlightOption, [cheapFlightOption] ++ [balancedFlightOption]) ∧
    partitionOptions FlightOption.option_type (some "luxury")
      (cheapFlightOption :: [fastFlightOption]) =
      (some cheapFlightOption, [fastFlightOption]) ∧
    partitionOptions FlightOption.option_type none
      (cheapFlightOption :: [fastFlightOption]) =
      (some cheapFlightOption, [fastFlightOption]) ∧
    mkFlightChoice 0 sampleFlightTask sampleFlightResult ∈
      (apply_flight_search_results sampleFlightState (plannerLHR 0 10 false)).2.traveler_flights :=
  ⟨(C5_choice_reconciliation FlightOption.option_type (some "fastest")
      [cheapFlightOption] [balancedFlightOption] fastFlightOption
      sampleFlightState (plannerLHR 0 10 false) 0 sampleFlightTask
      sampleFlightResult).1 (by decide) (by decide),
   (C5_choice_reconciliation FlightOption.option_type (some "luxury")
      [] [fastFlightOption] cheapFlightOption
      sampleFlightState (plannerLHR 0 10 false) 0 sampleFlightTask
      sampleFlightResult).2.1 (by decide),
   (C5_choice_reconciliation FlightOption.option_type none
      [] [fastFlightOption] cheapFlightOption
      sampleFlightState (plannerLHR 0 10 false) 0 sampleFlightTask
      sampleFlightResult).2.2.1 (by decide),
   ((C5_choice_reconciliation FlightOption.option_type none
      [] [] cheapFlightOption
      sampleFlightState (plannerLHR 0 10 false) 0 sampleFlightTask
      sampleFlightResult).2.2.2 (by decide) (by decide) (by decide) (by decide)).1⟩

/-- Inserting into an existing group keeps the group keys unchanged. -/
theorem addToGroups_map_fst_mem (groups : List (FlightKey × List Nat))
    (key : FlightKey) (idx : Nat) (h : groups.any (fun g => g.1 == key) = true) :
    (addToGroups groups key idx).map Prod.fst = groups.map Prod.fst := by
  unfold addToGroups
  rw [if_pos h, List.map_map]
  apply List.map_congr_left
  intro g _
  simp only [Function.comp_apply]
  split <;> rfl

/-- One grouping step preserves distinctness of the group keys. -/
theorem addToGroups_keys_nodup (groups : List (FlightKey × List Nat))
    (key : FlightKey) (idx : Nat) (h : (groups.map Prod.fst).Nodup) :
    ((addToGroups groups key idx).map Prod.fst).Nodup := by
  by_cases hmem : groups.any (fun g => g.1 == key) = true
  · rw [addToGroups_map_fst_mem groups key idx hmem]
    exact h
  · unfold addToGroups
    rw [if_neg hmem, List.map_append]
    rw [List.nodup_append]
    refine ⟨h, by simp, ?_⟩
    intro a ha hb
    rcases List.mem_map.mp ha with ⟨g, hg, rfl⟩
    have hk : g.1 = key := by simpa using hb
    exact hmem (List.any_eq_true.mpr ⟨g, hg, by simp [hk]⟩)

/-- Folding the grouping step over any element list keeps group keys
distinct. -/
theorem foldl_addToGroups_keys_nodup {β : Type} (key : β → FlightKey)
    (idx : β → Nat) :
    ∀ (l : List β) (groups : List (FlightKey × List Nat)),
      (groups.map Prod.fst).Nodup →
      (((l.foldl (fun gs b => addToGroups gs (key b) (idx b)) groups)).map Prod.fst).Nodup := by
  intro l
  induction l with
  | nil => intro groups h; exact h
  | cons b rest ih =>
      intro groups h
      exact ih _ (addToGroups_keys_nodup _ _ _ h)

/-- Folding the grouping step never shrinks the group list. -/
theorem foldl_addToGroups_length {β : Type} (key : β → FlightKey)
    (idx : β → Nat) :
    ∀ (l : List β) (groups : List (FlightKey × List Nat)),
      groups.length ≤ (l.foldl (fun gs b => addToGroups gs (key b) (idx b)) groups).length := by
  intro l
  induction l with
  | nil => intro groups; exact le_refl _
  | cons b rest ih =>
      intro groups
      refine le_trans ?_ (ih (addToGroups groups (key b) (idx b)))
      unfold addToGroups
      split <;> simp

/-- The flight grouping produces pairwise-distinct `(origin, destination)`
keys. -/
theorem flightGroups_keys_nodup (od : Option String) (dest : String)
    (travelers : List Traveler) :
    ((flightGroups od dest travelers).map Prod.fst).Nodup :=
  foldl_addToGroups_keys_nodup (travelerFlightKey od dest)
    (fun it => it.1) travelers.enum [] (by simp)

/-- With at least one traveler the flight grouping is non-empty. -/
theorem flightGroups_ne_nil (od : Option String) (dest : String)
    (travelers : List Traveler) (h : travelers ≠ []) :
    flightGroups od dest travelers ≠ [] := by
  cases travelers with
  | nil => exact absurd rfl h
  | cons t rest =>
      intro h0
      have h1 : 1 ≤ (flightGroups od dest (t :: rest)).length := by
        unfold flightGroups
        rw [List.enum_cons, List.foldl_cons]
        exact le_trans (le_of_eq rfl)
          (foldl_addToGroups_length (travelerFlightKey od dest)
            (fun it => it.1) (rest.enumFrom 1)
            (addToGroups [] (travelerFlightKey od dest (0, t)) (0, t).1))
      rw [h0] at h1
      simp at h1

/-- Mapping the group key out of the enumerated groups recovers the group
keys. -/
theorem enumFrom_map_groupKey :
    ∀ (n : Nat) (groups : List (FlightKey × List Nat)),
      (groups.enumFrom n).map
        (fun g => ((g.2.1.1, some g.2.1.2) : Option String × Option String)) =
      (groups.map Prod.fst).map (fun k => (k.1, some k.2))
  | _, [] => rfl
  | n, g :: gs => by
      simp only [List.enumFrom, List.map]
      rw [enumFrom_map_groupKey (n + 1) gs]

/-- The `(origin, destination)` keys of the tasks built from the groups are
the group keys (with the destination wrapped in `some`). -/
theorem map_taskKey_mk (n : Nat) (bm : Option String) (d1 d2 r1 r2 : Option Int)
    (hr : Bool) (groups : List (FlightKey × List Nat)) :
    (groups.enum.map (fun g =>
      mkFlightTask n bm d1 d2 r1 r2 hr g.1 g.2.1 g.2.2)).map taskKey =
    (groups.map Prod.fst).map (fun k => (k.1, some k.2)) := by
  rw [List.map_map]
  exact enumFrom_map_groupKey 0 groups

/-- Derivation either leaves the state unchanged (a skip) or appends a
non-empty task list with pairwise-distinct `(origin, destination)` keys. -/
theorem derive_flight_cases (ps : PlannerState) (e : Option Int)
    (fs : FlightState) :
    (derive_flight_search_tasks ps e fs).2 = fs ∨
    (∃ tasks : List FlightSearchTask,
      (derive_flight_search_tasks ps e fs).2 =
        { fs with search_tasks := fs.search_tasks ++ tasks } ∧
      tasks ≠ [] ∧ (tasks.map taskKey).Nodup) := by
  simp only [derive_flight_search_tasks]
  split
  · left; rfl
  · split
    · left; rfl
    · right
      rename_i h1 h2
      have htrav : ps.demographics.travelers ≠ [] := by
        intro h0
        exact h2 (by rw [h0]; rfl)
      refine ⟨_, rfl, ?_, ?_⟩
      · intro h0
        have hg := flightGroups_ne_nil
          (pyOrS ps.trip_details.origin_airport_code ps.trip_details.origin)
          (ps.trip_details.destination_airport_code.getD "")
          ps.demographics.travelers htrav
        rw [List.map_eq_nil_iff] at h0
        apply hg
        have hlen := congrArg List.length h0
        rw [show ((flightGroups (pyOrS ps.trip_details.origin_airport_code
            ps.trip_details.origin) (ps.trip_details.destination_airport_code.getD "")
            ps.demographics.travelers).enum.length) =
          (flightGroups (pyOrS ps.trip_details.origin_airport_code
            ps.trip_details.origin) (ps.trip_details.destination_airport_code.getD "")
            ps.demographics.travelers).length from List.enumFrom_length] at hlen
        exact List.length_eq_zero.mp hlen
      · rw [map_taskKey_mk]
        refine List.Nodup.map ?_ (flightGroups_keys_nodup _ _ _)
        intro a b hab
        simp only [Prod.mk.injEq, Option.some.injEq] at hab
        cases a
        cases b
        simp only [Prod.mk.injEq] at hab ⊢
        exact hab

/-- Claim C3: the driver-guarded flight-task derivation is idempotent: on a
state whose `search_tasks` is already non-empty the phase is the identity
(so a second derivation appends nothing and preserves distinctness of the
`(origin, destination)` groups), and starting from an empty state one
derivation produces pairwise-distinct groups and a second run changes
nothing. -/
theorem C3_derivation_idempotent (ps : PlannerState) (e : Option Int)
    (fs : FlightState) :
    (fs.search_tasks ≠ [] → flightDerivePhase ps e fs = fs) ∧
    (fs.search_tasks ≠ [] → (taskKeys fs).Nodup →
      (taskKeys (flightDerivePhase ps e fs)).Nodup) ∧
    (fs.search_tasks = [] → (taskKeys (flightDerivePhase ps e fs)).Nodup) ∧
    (fs.search_tasks = [] →
      flightDerivePhase ps e (flightDerivePhase ps e fs) =
        flightDerivePhase ps e fs) := by
  have hid : ∀ gs : FlightState, gs.search_tasks ≠ [] →
      flightDerivePhase ps e gs = gs := by
    intro gs h
    unfold flightDerivePhase
    rw [if_neg (by simpa [List.isEmpty_iff] using h)]
  refine ⟨hid fs, ?_, ?_, ?_⟩
  · intro h hnd
    rw [hid fs h]
    exact hnd
  · intro h
    unfold flightDerivePhase
    rw [if_pos (by simpa [List.isEmpty_iff] using h)]
    rcases derive_flight_cases ps e fs with hcase | ⟨tasks, heq, hne, hnd⟩
    · rw [hcase]
      unfold taskKeys
      rw [h]
      exact List.nodup_nil
    · rw [heq]
      unfold taskKeys
      show ((fs.search_tasks ++ tasks).map taskKey).Nodup
      rw [h]
      simpa using hnd
  · intro h
    rcases derive_flight_cases ps e fs with hcase | ⟨tasks, heq, hne, hnd⟩
    · have hphase : flightDerivePhase ps e fs = fs := by
        unfold flightDerivePhase
        rw [if_pos (by simpa [List.isEmpty_iff] using h), hcase]
      rw [hphase]
      exact hphase
    · have hphase : flightDerivePhase ps e fs =
          { fs with search_tasks := fs.search_tasks ++ tasks } := by
        unfold flightDerivePhase
        rw [if_pos (by simpa [List.isEmpty_iff] using h), heq]
      rw [hphase]
      apply hid
      show fs.search_tasks ++ tasks ≠ []
      rw [h]
      simpa using hne

/-- Witness for C3: a populated state passes through derivation unchanged,
and from the empty state one concrete derivation yields distinct groups and
a second derivation is a no-op. -/
theorem C3_derivation_idempotent_witness :
    flightDerivePhase (plannerLHR 0 10 false) none sampleFlightState =
      sampleFlightState ∧
    (taskKeys (flightDerivePhase (plannerLHR 0 10 false) none emptyFlightState)).Nodup ∧
    flightDerivePhase (plannerLHR 0 10 false) none
      (flightDerivePhase (plannerLHR 0 10 false) none emptyFlightState) =
      flightDerivePhase (plannerLHR 0 10 false) none emptyFlightState :=
  ⟨(C3_derivation_idempotent (plannerLHR 0 10 false) none sampleFlightState).1
      (by decide),
   (C3_derivation_idempotent (plannerLHR 0 10 false) none emptyFlightState).2.2.1 rfl,
   (C3_derivation_idempotent (plannerLHR 0 10 false) none emptyFlightState).2.2.2 rfl⟩

theorem natMaxZero (n : Nat) : Nat.max 0 n = n := by
  simp [Nat.max_def]

theorem natMaxAssoc (a b c : Nat) :
    Nat.max (Nat.max a b) c = Nat.max a (Nat.max b c) := by
  simp only [Nat.max_def]
  split_ifs <;> omega

/-- Folding `Nat.max` from an arbitrary seed. -/
theorem foldl_max_init : ∀ (l : List Nat) (i : Nat),
    l.foldl Nat.max i = Nat.max i (l.foldl Nat.max 0)
  | [], i => by simp [Nat.max_def]
  | a :: l, i => by
      show l.foldl Nat.max (Nat.max i a) = Nat.max i ((a :: l).foldl Nat.max 0)
      rw [foldl_max_init l (Nat.max i a)]
      show _ = Nat.max i (l.foldl Nat.max (Nat.max 0 a))
      rw [foldl_max_init l (Nat.max 0 a), natMaxZero]
      exact natMaxAssoc i a (l.foldl Nat.max 0)

theorem maxOfList_cons (a : Nat) (l : List Nat) :
    maxOfList (a :: l) = Nat.max a (maxOfList l) := by
  unfold maxOfList
  show l.foldl Nat.max (Nat.max 0 a) = _
  rw [foldl_max_init l (Nat.max 0 a), natMaxZero]

theorem maxOfList_append (l₁ l₂ : List Nat) :
    maxOfList (l₁ ++ l₂) = Nat.max (maxOfList l₁) (maxOfList l₂) := by
  induction l₁ with
  | nil =>
      rw [List.nil_append]
      exact (natMaxZero (maxOfList l₂)).symm
  | cons a l ih =>
      rw [List.cons_append, maxOfList_cons, ih, maxOfList_cons]
      exact (natMaxAssoc a (maxOfList l) (maxOfList l₂)).symm

/-- The maximum of a constant-block flattening: zero on no blocks, the
block's maximum otherwise. -/
theorem maxOfList_flatten_const {β : Type} (idxs : List β) (v : List Nat) :
    maxOfList ((idxs.map (fun _ => v)).flatten) =
      if idxs.isEmpty then 0 else maxOfList v := by
  induction idxs with
  | nil => rfl
  | cons i rest ih =>
      rw [List.map_cons, List.flatten_cons, maxOfList_append, ih]
      cases rest with
      | nil => simp [maxOfList]
      | cons j rest2 => simp

/-- The per-traveler loop only appends day hints to the accumulator's hint
component, once per covered traveler. -/
theorem foldl_visaTravelerStep_snd (r : VisaSearchResult) (task : VisaSearchTask) :
    ∀ (idxs : List Nat) (acc : List VisaRequirement × List Nat),
      (idxs.foldl (visaTravelerStep r task) acc).2 =
        acc.2 ++ (idxs.map (fun _ => (resultDayHint r).toList)).flatten := by
  intro idxs
  induction idxs with
  | nil => intro acc; simp
  | cons i rest ih =>
      intro acc
      rw [List.foldl_cons, ih]
      show (visaTravelerStep r task acc i).2 ++ _ = _
      unfold visaTravelerStep
      simp

/-- Processing one result appends exactly its hint contribution. -/
theorem processVisaResult_snd (tasks : List VisaSearchTask)
    (acc : List VisaRequirement × List Nat) (r : VisaSearchResult) :
    (processVisaResult tasks acc r).2 = acc.2 ++ hintContrib tasks r := by
  unfold processVisaResult hintContrib
  cases hfind : findLast (fun t => t.task_id == r.task_id) tasks with
  | none => simp
  | some task => exact foldl_visaTravelerStep_snd r task task.traveler_indexes acc

/-- The hint accumulator after the whole result loop. -/
theorem foldl_processVisaResult_snd (tasks : List VisaSearchTask) :
    ∀ (results : List VisaSearchResult) (acc : List VisaRequirement × List Nat),
      (results.foldl (processVisaResult tasks) acc).2 =
        acc.2 ++ (results.map (hintContrib tasks)).flatten := by
  intro results
  induction results with
  | nil => intro acc; simp
  | cons r rest ih =>
      intro acc
      rw [List.foldl_cons, ih, processVisaResult_snd]
      simp

/-- An unprocessed result contributes a zero maximum. -/
theorem maxOfList_hintContrib_unprocessed (tasks : List VisaSearchTask)
    (r : VisaSearchResult) (hp : ¬ hintProcessedB tasks r = true) :
    maxOfList (hintContrib tasks r) = 0 := by
  unfold hintProcessedB at hp
  unfold hintContrib
  cases hfind : findLast (fun t => t.task_id == r.task_id) tasks with
  | none => rfl
  | some task =>
      rw [hfind] at hp
      rw [maxOfList_flatten_const]
      by_cases hidx : task.traveler_indexes.isEmpty
      · rw [if_pos hidx]
      · rw [if_neg hidx]
        cases hsome : resultDayHint r with
        | none => rfl
        | some m =>
            exfalso
            apply hp
            simp [hidx, hsome]

/-- A processed result's contribution is non-empty with its day hint as
maximum. -/
theorem hintContrib_processed (tasks : List VisaSearchTask)
    (r : VisaSearchResult) (m : Nat)
    (task : VisaSearchTask)
    (hfind : findLast (fun t => t.task_id == r.task_id) tasks = some task)
    (hidx : task.traveler_indexes.isEmpty = false)
    (hm : resultDayHint r = some m) :
    maxOfList (hintContrib tasks r) = m ∧ hintContrib tasks r ≠ [] := by
  unfold hintContrib
  rw [hfind, hm]
  constructor
  · rw [maxOfList_flatten_const, if_neg (by simp [hidx])]
    simp [maxOfList_cons, maxOfList]
  · cases hi : task.traveler_indexes with
    | nil => rw [hi] at hidx; cases hidx
    | cons i rest => simp [hi]

/-- The code's hint accumulation has the same maximum as the declarative
per-hint-then-global maximum. -/
theorem maxOfList_contrib (tasks : List VisaSearchTask) :
    ∀ (results : List VisaSearchResult),
      maxOfList ((results.map (hintContrib tasks)).flatten) =
        maxOfList ((results.filter (hintProcessedB tasks)).filterMap resultDayHint) := by
  intro results
  induction results with
  | nil => rfl
  | cons r rest ih =>
      rw [List.map_cons, List.flatten_cons, maxOfList_append, ih]
      by_cases hp : hintProcessedB tasks r = true
      · have hp' := hp
        unfold hintProcessedB at hp'
        rw [Bool.and_eq_true] at hp'
        obtain ⟨hfind', hsome⟩ := hp'
        obtain ⟨m, hm⟩ := Option.isSome_iff_exists.mp hsome
        cases hfind : findLast (fun t => t.task_id == r.task_id) tasks with
        | none => rw [hfind] at hfind'; cases hfind'
        | some task =>
            rw [hfind] at hfind'
            have hidx : task.traveler_indexes.isEmpty = false := by
              simpa using hfind'
            obtain ⟨hmax, _⟩ := hintContrib_processed tasks r m task hfind hidx hm
            rw [hmax, List.filter_cons_of_pos hp, List.filterMap_cons, hm,
              maxOfList_cons]
      · rw [maxOfList_hintContrib_unprocessed tasks r hp, natMaxZero,
          List.filter_cons_of_neg hp]

/-- A processed result makes the flattened contribution non-empty. -/
theorem flatten_contrib_ne_nil (tasks : List VisaSearchTask)
    (results : List VisaSearchResult)
    (hproc : results.filter (hintProcessedB tasks) ≠ []) :
    (results.map (hintContrib tasks)).flatten ≠ [] := by
  obtain ⟨r, hrmem, hp⟩ : ∃ r ∈ results, hintProcessedB tasks r = true := by
    cases hfil : results.filter (hintProcessedB tasks) with
    | nil => exact absurd hfil hproc
    | cons x xs =>
        have hx : x ∈ results.filter (hintProcessedB tasks) := by
          rw [hfil]; exact List.mem_cons_self x xs
        exact ⟨x, List.mem_of_mem_filter hx, List.of_mem_filter hx⟩
  have hp' := hp
  unfold hintProcessedB at hp'
  rw [Bool.and_eq_true] at hp'
  obtain ⟨hfind', hsome⟩ := hp'
  obtain ⟨m, hm⟩ := Option.isSome_iff_exists.mp hsome
  cases hfind : findLast (fun t => t.task_id == r.task_id) tasks with
  | none => rw [hfind] at hfind'; cases hfind'
  | some task =>
      rw [hfind] at hfind'
      have hidx : task.traveler_indexes.isEmpty = false := by simpa using hfind'
      obtain ⟨_, hne⟩ := hintContrib_processed tasks r m task hfind hidx hm
      intro h0
      apply hne
      have hmem2 : hintContrib tasks r ∈ results.map (hintContrib tasks) :=
        List.mem_map.mpr ⟨r, hrmem, rfl⟩
      cases hc : hintContrib tasks r with
      | nil => rfl
      | cons y ys =>
          have hyy : y ∈ hintContrib tasks r := by
            rw [hc]
            exact List.mem_cons_self y ys
          have hmem3 : y ∈ (results.map (hintContrib tasks)).flatten :=
            List.mem_flatten.mpr ⟨hintContrib tasks r, hmem2, hyy⟩
          rw [h0] at hmem3
          exact absurd hmem3 (List.not_mem_nil y)

/-- Claim C7: whenever the visa apply step processes at least one result
whose `processing_time_hint` contains a digit (its task resolves and covers
at least one traveler), `earliest_safe_departure_date` is overwritten with
today plus the clamp to `[1, 120]` of the maximum over all processed hints
of the per-hint maximum extracted integer. -/
theorem C7_earliest_safe_departure (today : Int) (vs : VisaState)
    (hproc : vs.search_results.filter (hintProcessedB vs.search_tasks) ≠ []) :
    (apply_visa_search_results today vs).2.earliest_safe_departure_date =
      some (today + (Nat.max 1 (Nat.min (maxOfList (dayHintMaxes vs)) 120) : Nat)) := by
  have hresne : vs.search_results ≠ [] := by
    intro h0
    rw [h0] at hproc
    exact hproc rfl
  have hsnd := foldl_processVisaResult_snd vs.search_tasks vs.search_results
    (vs.requirements, [])
  have hne2 : (vs.search_results.foldl (processVisaResult vs.search_tasks)
      (vs.requirements, [])).2 ≠ [] := by
    rw [hsnd]
    simpa using flatten_contrib_ne_nil vs.search_tasks vs.search_results hproc
  unfold apply_visa_search_results
  rw [if_neg (by simpa [List.isEmpty_iff] using hresne)]
  show (if (vs.search_results.foldl (processVisaResult vs.search_tasks)
      (vs.requirements, [])).2 ≠ [] then
        some (today + (Nat.max 1 (Nat.min (maxOfList
          (vs.search_results.foldl (processVisaResult vs.search_tasks)
            (vs.requirements, [])).2) 120) : Nat))
      else vs.earliest_safe_departure_date) = _
  rw [if_pos hne2, hsnd]
  simp only [List.nil_append]
  rw [maxOfList_contrib]
  rfl

/-- Witness for C7: the concrete state with one "15 working days" hint gets
`earliest_safe_departure_date = today + 15`. -/
theorem C7_earliest_safe_departure_witness :
    (apply_visa_search_results 20000 sampleVisaState).2.earliest_safe_departure_date =
      some 20015 := by
  have h := C7_earliest_safe_departure 20000 sampleVisaState (by decide)
  rw [h]
  decide

/-- The itinerary filter either rejects an item (state unchanged) or
accepts it, and acceptance implies the neighborhood cap was not hit. -/
theorem itineraryStep_cases (n : Nat) (st : ItinFilterState) (raw : RawItinItem) :
    itineraryStep n st raw = st ∨
    (itineraryStep n st raw = itinAccept n st raw ∧
      ¬ (rawNbhd raw ≠ "" ∧ rawNbhd raw ∉ st.neighborhoodsByDate (raw.date.getD "") ∧
        2 ≤ (st.neighborhoodsByDate (raw.date.getD "")).card)) := by
  unfold itineraryStep
  split
  · left; rfl
  · split
    · left; rfl
    · split
      · left; rfl
      · split
        · left; rfl
        · right
          rename_i hcap
          exact ⟨rfl, hcap⟩

/-- Claim C8: an item whose URL was already accepted is rejected; a no-URL
non-meal item whose name+city key was already accepted is rejected; an
accepted item registers its URL (or name+city key) before the next item is
processed; and in the concrete two-chunk run a repeated URL is accepted
exactly once while the no-URL "Hotel breakfast" is accepted on both
dates. -/
theorem C8_itinerary_dedupe (n : Nat) (st : ItinFilterState) (raw : RawItinItem) :
    (strTruthy raw.url = true → raw.url.getD "" ∈ st.seenByUrl →
      itineraryStep n st raw = st) ∧
    (strTruthy raw.url = false → rawIsMeal raw = false →
      nameCityKey raw ∈ st.seenByNameCity → itineraryStep n st raw = st) ∧
    ((itineraryStep n st raw).accumulated ≠ st.accumulated →
      (strTruthy raw.url = true → raw.url.getD "" ∈ (itineraryStep n st raw).seenByUrl) ∧
      (strTruthy raw.url = false → rawIsMeal raw = false →
        nameCityKey raw ∈ (itineraryStep n st raw).seenByNameCity)) ∧
    ((processChunks 2 emptyItinState
        [[itinRawMuseum], [itinRawMuseum, itinRawBreakfast1, itinRawBreakfast2]]).accumulated.filter
      (fun it => it.activity.url == some "https://museum.example/bm")).length = 1 ∧
    ((processChunks 2 emptyItinState
        [[itinRawMuseum], [itinRawMuseum, itinRawBreakfast1, itinRawBreakfast2]]).accumulated.filter
      (fun it => it.activity.name == "Hotel breakfast")).length = 2 := by
  refine ⟨?_, ?_, ?_, by decide, by decide⟩
  · intro hurl hmem
    unfold itineraryStep
    split
    · rfl
    · split
      · rfl
      · split
        · rfl
        · split
          · rfl
          · rename_i hC1 _ _
            exact absurd ⟨hurl, hmem⟩ hC1
  · intro hurl hmeal hkey
    unfold itineraryStep
    split
    · rfl
    · split
      · rfl
      · split
        · rfl
        · split
          · rfl
          · rename_i hC2 _
            exact absurd ⟨by simp [hurl], by simp [hmeal], hkey⟩ hC2
  · intro hacc
    rcases itineraryStep_cases n st raw with hcase | ⟨hcase, _⟩
    · rw [hcase] at hacc
      exact absurd rfl hacc
    · rw [hcase]
      constructor
      · intro hurl
        show raw.url.getD "" ∈ (if strTruthy raw.url = true then
          insert (raw.url.getD "") st.seenByUrl else st.seenByUrl)
        rw [if_pos hurl]
        exact Finset.mem_insert_self _ _
      · intro hurl hmeal
        show nameCityKey raw ∈ (if ¬ (strTruthy raw.url = true) ∧
            ¬ (rawIsMeal raw = true) then
          insert (nameCityKey raw) st.seenByNameCity else st.seenByNameCity)
        rw [if_pos ⟨by simp [hurl], by simp [hmeal]⟩]
        exact Finset.mem_insert_self _ _

/-- Witness for C8: the seeded state rejects both the repeated-URL museum
and the name+city collision, and a fresh acceptance registers its URL. -/
theorem C8_itinerary_dedupe_witness :
    itineraryStep 2 seededItinState itinRawMuseum = seededItinState ∧
    itineraryStep 2 seededItinState itinRawNoUrl = seededItinState ∧
    "https://museum.example/bm" ∈
      (itineraryStep 2 emptyItinState itinRawMuseum).seenByUrl :=
  ⟨(C8_itinerary_dedupe 2 seededItinState itinRawMuseum).1 (by decide) (by decide),
   (C8_itinerary_dedupe 2 seededItinState itinRawNoUrl).2.1
     (by decide) (by decide) (by decide),
   ((C8_itinerary_dedupe 2 emptyItinState itinRawMuseum).2.2.1 (by decide)).1
     (by decide)⟩

/-- `acceptedNbhds` distributes over appending an item. -/
theorem acceptedNbhds_append (xs : List DayItineraryItem)
    (it : DayItineraryItem) (d : String) :
    acceptedNbhds (xs ++ [it]) d = acceptedNbhds xs d ∪ acceptedNbhds [it] d := by
  unfold acceptedNbhds
  rw [List.filter_append, List.filterMap_append, List.toFinset_append]

/-- The neighborhoods of a single accepted item. -/
theorem acceptedNbhds_singleton (it : DayItineraryItem) (d : String) :
    acceptedNbhds [it] d =
      if it.date = d ∧ trimStr (it.activity.neighborhood.getD "") ≠ "" then
        {trimStr (it.activity.neighborhood.getD "")}
      else ∅ := by
  unfold acceptedNbhds
  by_cases h1 : it.date = d
  · by_cases h2 : trimStr (it.activity.neighborhood.getD "") = ""
    · simp [h1, h2]
    · simp [h1, h2]
  · simp [h1]

/-- One filter step preserves the neighborhood invariant. -/
theorem itineraryStep_invariant (n : Nat) (raw : RawItinItem)
    (st : ItinFilterState) (h : nbhdInvariant st) :
    nbhdInvariant (itineraryStep n st raw) := by
  rcases itineraryStep_cases n st raw with hcase | ⟨hcase, hcap⟩
  · rw [hcase]; exact h
  · rw [hcase]
    intro d
    have hsup : st.neighborhoodsByDate d ⊆ (itinAccept n st raw).neighborhoodsByDate d := by
      show st.neighborhoodsByDate d ⊆
        (if rawNbhd raw ≠ "" then
          fun d2 => if d2 = raw.date.getD "" then
            insert (rawNbhd raw) (st.neighborhoodsByDate d2)
          else st.neighborhoodsByDate d2
        else st.neighborhoodsByDate) d
      by_cases hnb : rawNbhd raw ≠ ""
      · rw [if_pos hnb]
        by_cases hd : d = raw.date.getD ""
        · show st.neighborhoodsByDate d ⊆
            (if d = raw.date.getD "" then insert (rawNbhd raw) (st.neighborhoodsByDate d)
             else st.neighborhoodsByDate d)
          rw [if_pos hd]
          exact Finset.subset_insert _ _
        · show st.neighborhoodsByDate d ⊆
            (if d = raw.date.getD "" then insert (rawNbhd raw) (st.neighborhoodsByDate d)
             else st.neighborhoodsByDate d)
          rw [if_neg hd]
      · rw [if_neg hnb]
    constructor
    · show ((if rawNbhd raw ≠ "" then
          fun d2 => if d2 = raw.date.getD "" then
            insert (rawNbhd raw) (st.neighborhoodsByDate d2)
          else st.neighborhoodsByDate d2
        else st.neighborhoodsByDate) d).card ≤ 2
      by_cases hnb : rawNbhd raw ≠ ""
      · rw [if_pos hnb]
        show (if d = raw.date.getD "" then
            insert (rawNbhd raw) (st.neighborhoodsByDate d)
          else st.neighborhoodsByDate d).card ≤ 2
        by_cases hd : d = raw.date.getD ""
        · rw [if_pos hd]
          by_cases hmem : rawNbhd raw ∈ st.neighborhoodsByDate d
          · rw [Finset.insert_eq_self.mpr hmem]
            exact (h d).1
          · have hlt : ¬ 2 ≤ (st.neighborhoodsByDate (raw.date.getD "")).card := by
              intro hge
              exact hcap ⟨hnb, by rw [← hd]; exact hmem, hge⟩
            have hle : (st.neighborhoodsByDate d).card ≤ 1 := by
              rw [hd]
              omega
            calc (insert (rawNbhd raw) (st.neighborhoodsByDate d)).card
                ≤ (st.neighborhoodsByDate d).card + 1 := Finset.card_insert_le _ _
              _ ≤ 2 := by omega
        · rw [if_neg hd]
          exact (h d).1
      · rw [if_neg hnb]
        exact (h d).1
    · show acceptedNbhds (st.accumulated ++ [mkItinItem n raw]) d ⊆ _
      rw [acceptedNbhds_append, acceptedNbhds_singleton]
      apply Finset.union_subset
      · exact subset_trans (h d).2 hsup
      · by_cases hone : (mkItinItem n raw).date = d ∧
            trimStr ((mkItinItem n raw).activity.neighborhood.getD "") ≠ ""
        · rw [if_pos hone]
          have hdd : d = raw.date.getD "" := hone.1.symm
          have hnb : rawNbhd raw ≠ "" := hone.2
          have hmem : rawNbhd raw ∈ (itinAccept n st raw).neighborhoodsByDate d := by
            show rawNbhd raw ∈
              (if rawNbhd raw ≠ "" then
                fun d2 => if d2 = raw.date.getD "" then
                  insert (rawNbhd raw) (st.neighborhoodsByDate d2)
                else st.neighborhoodsByDate d2
              else st.neighborhoodsByDate) d
            rw [if_pos hnb]
            show rawNbhd raw ∈
              (if d = raw.date.getD "" then
                insert (rawNbhd raw) (st.neighborhoodsByDate d)
              else st.neighborhoodsByDate d)
            rw [if_pos hdd]
            exact Finset.mem_insert_self _ _
          intro x hx
          rw [Finset.mem_singleton] at hx
          rw [hx]
          exact hmem
        · rw [if_neg hone]
          exact Finset.empty_subset _

/-- Every state reachable through the chunk filter from the empty day plan
satisfies the neighborhood invariant. -/
theorem processChunks_invariant (n : Nat) (chunks : List (List RawItinItem)) :
    nbhdInvariant (processChunks n emptyItinState chunks) := by
  have hfold : ∀ (items : List RawItinItem) (st : ItinFilterState),
      nbhdInvariant st → nbhdInvariant (items.foldl (itineraryStep n) st) := by
    intro items
    induction items with
    | nil => intro st h; exact h
    | cons raw rest ih =>
        intro st h
        exact ih _ (itineraryStep_invariant n raw st h)
  have hempty : nbhdInvariant emptyItinState := by
    intro d
    constructor
    · simp [emptyItinState]
    · simp [emptyItinState, acceptedNbhds]
  have hchunks : ∀ (cs : List (List RawItinItem)) (st : ItinFilterState),
      nbhdInvariant st → nbhdInvariant (processChunks n st cs) := by
    intro cs
    induction cs with
    | nil => intro st h; exact h
    | cons c rest ih =>
        intro st h
        exact ih _ (hfold c st h)
  exact hchunks chunks emptyItinState hempty

/-- Claim C9: an item that specifies a neighborhood not among the (already
two) registered neighborhoods of its date is rejected, and every state the
chunk filter reaches from an empty day plan has at most two registered —
and at most two accepted-item — distinct neighborhoods per date. -/
theorem C9_neighborhood_cap (n : Nat) (st : ItinFilterState)
    (raw : RawItinItem) (chunks : List (List RawItinItem)) (d : String) :
    (rawNbhd raw ≠ "" → rawNbhd raw ∉ st.neighborhoodsByDate (raw.date.getD "") →
      2 ≤ (st.neighborhoodsByDate (raw.date.getD "")).card →
      itineraryStep n st raw = st) ∧
    ((processChunks n emptyItinState chunks).neighborhoodsByDate d).card ≤ 2 ∧
    (acceptedNbhds (processChunks n emptyItinState chunks).accumulated d).card ≤ 2 := by
  refine ⟨?_, (processChunks_invariant n chunks d).1, ?_⟩
  · intro h1 h2 h3
    unfold itineraryStep
    split
    · rfl
    · split
      · rfl
      · split
        · rfl
        · split
          · rfl
          · rename_i hcap
            exact absurd ⟨h1, h2, h3⟩ hcap
  · have hinv := processChunks_invariant n chunks d
    exact le_trans (Finset.card_le_card hinv.2) hinv.1

/-- Witness for C9: the two-neighborhood state rejects a third-neighborhood
item, and the concrete museum+breakfast chunk stays within the cap. -/
theorem C9_neighborhood_cap_witness :
    itineraryStep 2 twoNbhdItinState itinRawThirdNbhd = twoNbhdItinState ∧
    ((processChunks 2 emptyItinState
        [[itinRawMuseum, itinRawBreakfast1]]).neighborhoodsByDate "2025-12-02").card ≤ 2 ∧
    (acceptedNbhds (processChunks 2 emptyItinState
        [[itinRawMuseum, itinRawBreakfast1]]).accumulated "2025-12-02").card ≤ 2 := by
  have h := C9_neighborhood_cap 2 twoNbhdItinState itinRawThirdNbhd
    [[itinRawMuseum, itinRawBreakfast1]] "2025-12-02"
  exact ⟨h.1 (by decide) (by decide) (by decide), h.2.1, h.2.2⟩

end GlobeTripper
